import Mathlib

/-!
Shallow embedding of the LumiTrack backend core: ownership-chain
authorization, tariff-based cost computation for consumption records,
distributor referential guards, and the auth token lifecycle.

Conventions of the embedding:
* entity ids are `Nat`, monetary values and kWh quantities are `Rat`
  (the source uses JavaScript numbers / Prisma Decimal; `Rat` keeps the
  multiplication exact, which is what the claims are about),
* calendar instants and reference dates are `Int` (milliseconds),
* the database is a record of lists; Prisma `findUnique`/`findFirst`
  become `List.find?`,
* a thrown `AppError` becomes `Except.error`; service methods that can
  mutate state return the (possibly unchanged) database next to the
  `Except` result, so that "no mutation on failure" is a provable fact,
* external collaborators (bcrypt, JWT signing, the zod e-mail format
  check) are passed in as parameters or modelled at their interface
  boundary, exactly as the spec scopes them.
-/

namespace Lumitrack

/-- Error taxonomy of `shared/errors/AppError.ts`, with the user-facing
message carried along (several claims are about which exact error and
message is produced). `internal` models the translation of unexpected
lower-layer errors into a generic failure. -/
inductive AppError where
  | validation (msg : String)
  | notFound (msg : String)
  | forbidden (msg : String)
  | conflict (msg : String)
  | unauthorized (msg : String)
  | badRequest (msg : String)
  | internal (msg : String)
deriving DecidableEq, Repr

/-- Electrical system kind of a distributor (`distributor.schema.ts`). -/
inductive ElectricalSystem where
  | MONOPHASIC
  | BIPHASIC
  | TRIPHASIC
deriving DecidableEq, Repr

/-- An energy distributor / tariff contract (`DistributorResponse`). -/
structure Distributor where
  id : Nat
  userId : Nat
  name : String
  cnpj : String
  electricalSystem : ElectricalSystem
  workingVoltage : Nat
  kwhPrice : Rat
  taxRate : Option Rat
  publicLightingFee : Option Rat
deriving DecidableEq, Repr

/-- A property owned by a user (`PropertyResponse`). -/
structure Property where
  id : Nat
  userId : Nat
  distributorId : Nat
  name : String
  address : Option String
  city : Option String
  state : Option String
  zipCode : Option String
deriving DecidableEq, Repr

/-- An area inside a property (`AreaResponse`). -/
structure Area where
  id : Nat
  propertyId : Nat
  name : String
  description : Option String
deriving DecidableEq, Repr

/-- A device inside an area (`DeviceResponse`). -/
structure Device where
  id : Nat
  areaId : Nat
  name : String
  brand : Option String
  model : Option String
  powerWatts : Option Int
deriving DecidableEq, Repr

/-- Period kind of a consumption record (`consumptionPeriodSchema`). -/
inductive Period where
  | DAILY
  | MONTHLY
  | ANNUAL
deriving DecidableEq, Repr

/-- Portuguese label used inside the duplicate-conflict message, mirroring
the template interpolation of the period in the source. -/
def Period.label : Period → String
  | .DAILY => "DAILY"
  | .MONTHLY => "MONTHLY"
  | .ANNUAL => "ANNUAL"

/-- The tagged single-target union of `ConsumptionTarget`: exactly one of
propertyId / areaId / deviceId is set. -/
inductive Target where
  | property (propertyId : Nat)
  | area (areaId : Nat)
  | device (deviceId : Nat)
deriving DecidableEq, Repr

/-- A stored consumption record (`ConsumptionResponse`). -/
structure ConsumptionRecord where
  id : Nat
  target : Target
  period : Period
  referenceDate : Int
  kwhConsumed : Rat
  costBrl : Rat
  notes : Option String
deriving DecidableEq, Repr

/-- The relational state the services read and write. `nextId` supplies
fresh ids for inserts. -/
structure DB where
  distributors : List Distributor
  properties : List Property
  areas : List Area
  devices : List Device
  consumptions : List ConsumptionRecord
  nextId : Nat
deriving DecidableEq, Repr

/-- `DistributorRepository.findById`. -/
def DB.findDistributor (db : DB) (id : Nat) : Option Distributor :=
  db.distributors.find? (fun d => d.id == id)

/-- `PropertyRepository.findById`. -/
def DB.findProperty (db : DB) (id : Nat) : Option Property :=
  db.properties.find? (fun p => p.id == id)

/-- `AreaRepository.findById`. -/
def DB.findArea (db : DB) (id : Nat) : Option Area :=
  db.areas.find? (fun a => a.id == id)

/-- `DeviceRepository.findById`. -/
def DB.findDevice (db : DB) (id : Nat) : Option Device :=
  db.devices.find? (fun d => d.id == id)

/-- `ConsumptionRepository.findById`. -/
def DB.findConsumption (db : DB) (id : Nat) : Option ConsumptionRecord :=
  db.consumptions.find? (fun r => r.id == id)

/-- `DistributorRepository.hasProperties`: count of properties referencing
the distributor is positive. -/
def DistributorRepository.hasProperties (db : DB) (id : Nat) : Bool :=
  0 < (db.properties.filter (fun p => p.distributorId == id)).length

/-- Payload of `createConsumptionSchema` after the zod parse: the ISO date
string is already a date value here; the shape checks that zod performs
(field presence, types) are carried by the Lean types themselves. -/
structure CreateConsumptionInput where
  period : Period
  referenceDate : Int
  kwhConsumed : Rat
  notes : Option String
deriving DecidableEq, Repr

/-- Payload of `updateConsumptionSchema`: both fields optional, `none`
standing for a field absent from the JSON body (undefined). -/
structure UpdateConsumptionInput where
  kwhConsumed : Option Rat
  notes : Option String
deriving DecidableEq, Repr

namespace ConsumptionService

/-- `parseAndValidateCreate`: the value checks of `createConsumptionSchema`
(kwhConsumed strictly positive, notes at most 500 characters). -/
def parseAndValidateCreate (input : CreateConsumptionInput) :
    Except AppError CreateConsumptionInput :=
  if input.kwhConsumed ≤ 0 then
    .error (.validation "kwhConsumed deve ser maior que zero")
  else
    match input.notes with
    | some s =>
      if 500 < s.length then .error (.validation "Dados inválidos") else .ok input
    | none => .ok input

/-- `updateConsumptionSchema` value checks: kwhConsumed strictly positive
when present, notes at most 500 characters when present. -/
def parseAndValidateUpdate (input : UpdateConsumptionInput) :
    Except AppError UpdateConsumptionInput :=
  match input.kwhConsumed with
  | some k =>
    if k ≤ 0 then .error (.validation "kwhConsumed deve ser maior que zero")
    else
      match input.notes with
      | some s =>
        if 500 < s.length then .error (.validation "Dados inválidos") else .ok input
      | none => .ok input
  | none =>
    match input.notes with
    | some s =>
      if 500 < s.length then .error (.validation "Dados inválidos") else .ok input
    | none => .ok input

/-- `ConsumptionService.validatePropertyAndGetKwhPrice`: property must
exist (else NotFound) and belong to the user (else Forbidden); then the
linked distributor must exist (else NotFound) and its price is returned. -/
def validatePropertyAndGetKwhPrice (db : DB) (propertyId userId : Nat) :
    Except AppError Rat :=
  match db.findProperty propertyId with
  | none => .error (.notFound "Propriedade não encontrada")
  | some property =>
    if property.userId ≠ userId then
      .error (.forbidden "Acesso negado")
    else
      match db.findDistributor property.distributorId with
      | none => .error (.notFound "Distribuidora vinculada não encontrada")
      | some distributor => .ok distributor.kwhPrice

/-- `ConsumptionService.validateAreaBelongsToProperty`: absent area is
NotFound; an area stored under a different property is Forbidden. -/
def validateAreaBelongsToProperty (db : DB) (areaId propertyId : Nat) :
    Except AppError Unit :=
  match db.findArea areaId with
  | none => .error (.notFound "Área não encontrada")
  | some area =>
    if area.propertyId ≠ propertyId then
      .error (.forbidden "Área não pertence a esta propriedade")
    else
      .ok ()

/-- `ConsumptionService.validateDeviceBelongsToArea`: absent device is
NotFound; a device stored under a different area is Forbidden. -/
def validateDeviceBelongsToArea (db : DB) (deviceId areaId : Nat) :
    Except AppError Unit :=
  match db.findDevice deviceId with
  | none => .error (.notFound "Dispositivo não encontrado")
  | some device =>
    if device.areaId ≠ areaId then
      .error (.forbidden "Dispositivo não pertence a esta área")
    else
      .ok ()

end ConsumptionService

/-- `ConsumptionRepository.findByTargetAndPeriod`: the uniqueness probe on
(target, period, referenceDate). -/
def ConsumptionRepository.findByTargetAndPeriod (db : DB) (target : Target)
    (period : Period) (referenceDate : Int) : Option ConsumptionRecord :=
  db.consumptions.find? (fun r =>
    r.target == target && r.period == period && r.referenceDate == referenceDate)

/-- `ConsumptionRepository.create`: insert the record with its derived
cost; exactly one target foreign key is set by the `Target` sum type. -/
def ConsumptionRepository.create (db : DB) (target : Target)
    (data : CreateConsumptionInput) (costBrl : Rat) : ConsumptionRecord × DB :=
  let record : ConsumptionRecord :=
    { id := db.nextId
      target := target
      period := data.period
      referenceDate := data.referenceDate
      kwhConsumed := data.kwhConsumed
      costBrl := costBrl
      notes := data.notes }
  (record, { db with consumptions := db.consumptions ++ [record], nextId := db.nextId + 1 })

/-- One defined entry of an `updateConsumptionSchema` payload, as produced
by `Object.entries` after the undefined-filter. -/
inductive ConsumptionField where
  | kwhConsumed (v : Rat)
  | notes (v : String)
deriving DecidableEq, Repr

/-- The `cleanData` computation of `ConsumptionRepository.update`: the list
of entries whose value is defined, in object-key order. -/
def UpdateConsumptionInput.entries (u : UpdateConsumptionInput) : List ConsumptionField :=
  (u.kwhConsumed.map ConsumptionField.kwhConsumed).toList ++
  (u.notes.map ConsumptionField.notes).toList

/-- Assign one defined entry onto the stored row (the object spread). -/
def ConsumptionRecord.applyField (r : ConsumptionRecord) :
    ConsumptionField → ConsumptionRecord
  | .kwhConsumed v => { r with kwhConsumed := v }
  | .notes v => { r with notes := some v }

/-- Effect of the data object built by `ConsumptionRepository.update`: the
defined entries are spread over the stored row, and `costBrl` is spread
separately, only when the service passed one. -/
def ConsumptionRecord.applyUpdate (r : ConsumptionRecord)
    (data : UpdateConsumptionInput) (costBrl : Option Rat) : ConsumptionRecord :=
  let base := data.entries.foldl ConsumptionRecord.applyField r
  match costBrl with
  | some c => { base with costBrl := c }
  | none => base

/-- `ConsumptionRepository.update`: Prisma rejects an update of a missing
row (the service never reaches that case; it would surface as a generic
internal error). -/
def ConsumptionRepository.update (db : DB) (id : Nat)
    (data : UpdateConsumptionInput) (costBrl : Option Rat) :
    Except AppError (ConsumptionRecord × DB) :=
  match db.findConsumption id with
  | none => .error (.internal "Erro interno do servidor")
  | some r =>
    let r' := r.applyUpdate data costBrl
    .ok (r', { db with consumptions := db.consumptions.map (fun x => if x.id == id then r' else x) })

/-- `ConsumptionRepository.delete`. -/
def ConsumptionRepository.delete (db : DB) (id : Nat) : DB :=
  { db with consumptions := db.consumptions.filter (fun r => r.id ≠ id) }

namespace ConsumptionService

/-- `ConsumptionService.createForProperty`: validate payload, property
ownership chain and tariff, duplicate-period guard, then insert with the
derived cost. On any failure the state is returned unchanged. -/
def createForProperty (db : DB) (propertyId userId : Nat)
    (input : CreateConsumptionInput) : Except AppError ConsumptionRecord × DB :=
  match parseAndValidateCreate input with
  | .error e => (.error e, db)
  | .ok data =>
    match validatePropertyAndGetKwhPrice db propertyId userId with
    | .error e => (.error e, db)
    | .ok kwhPrice =>
      match ConsumptionRepository.findByTargetAndPeriod db (.property propertyId)
          data.period data.referenceDate with
      | some _ =>
        (.error (.conflict ("Já existe um registro " ++ data.period.label ++
          " para esta propriedade nesta data")), db)
      | none =>
        let costBrl := data.kwhConsumed * kwhPrice
        let (record, db') := ConsumptionRepository.create db (.property propertyId) data costBrl
        (.ok record, db')

/-- `ConsumptionService.createForArea`. -/
def createForArea (db : DB) (areaId propertyId userId : Nat)
    (input : CreateConsumptionInput) : Except AppError ConsumptionRecord × DB :=
  match parseAndValidateCreate input with
  | .error e => (.error e, db)
  | .ok data =>
    match validatePropertyAndGetKwhPrice db propertyId userId with
    | .error e => (.error e, db)
    | .ok kwhPrice =>
      match validateAreaBelongsToProperty db areaId propertyId with
      | .error e => (.error e, db)
      | .ok _ =>
        match ConsumptionRepository.findByTargetAndPeriod db (.area areaId)
            data.period data.referenceDate with
        | some _ =>
          (.error (.conflict ("Já existe um registro " ++ data.period.label ++
            " para esta área nesta data")), db)
        | none =>
          let costBrl := data.kwhConsumed * kwhPrice
          let (record, db') := ConsumptionRepository.create db (.area areaId) data costBrl
          (.ok record, db')

/-- `ConsumptionService.createForDevice`: the full four-level chain, in
strict top-down order. -/
def createForDevice (db : DB) (deviceId areaId propertyId userId : Nat)
    (input : CreateConsumptionInput) : Except AppError ConsumptionRecord × DB :=
  match parseAndValidateCreate input with
  | .error e => (.error e, db)
  | .ok data =>
    match validatePropertyAndGetKwhPrice db propertyId userId with
    | .error e => (.error e, db)
    | .ok kwhPrice =>
      match validateAreaBelongsToProperty db areaId propertyId with
      | .error e => (.error e, db)
      | .ok _ =>
        match validateDeviceBelongsToArea db deviceId areaId with
        | .error e => (.error e, db)
        | .ok _ =>
          match ConsumptionRepository.findByTargetAndPeriod db (.device deviceId)
              data.period data.referenceDate with
          | some _ =>
            (.error (.conflict ("Já existe um registro " ++ data.period.label ++
              " para este dispositivo nesta data")), db)
          | none =>
            let costBrl := data.kwhConsumed * kwhPrice
            let (record, db') := ConsumptionRepository.create db (.device deviceId) data costBrl
            (.ok record, db')

/-- `ConsumptionService.findById`: validates only that the property named
in the URL belongs to the user, then fetches the record by id — the
source performs no check tying the record to that property. -/
def findById (db : DB) (id propertyId userId : Nat) :
    Except AppError ConsumptionRecord :=
  match validatePropertyAndGetKwhPrice db propertyId userId with
  | .error e => .error e
  | .ok _ =>
    match db.findConsumption id with
    | none => .error (.notFound "Registro de consumo não encontrado")
    | some record => .ok record

/-- `ConsumptionService.update`: find the record through `findById`,
validate the payload, recompute the cost only when kwhConsumed is in the
payload, then write through the repository. -/
def update (db : DB) (id propertyId userId : Nat)
    (input : UpdateConsumptionInput) : Except AppError ConsumptionRecord × DB :=
  match findById db id propertyId userId with
  | .error e => (.error e, db)
  | .ok _record =>
    match parseAndValidateUpdate input with
    | .error e => (.error e, db)
    | .ok parsed =>
      let newCostBrl : Except AppError (Option Rat) :=
        match parsed.kwhConsumed with
        | some k =>
          match validatePropertyAndGetKwhPrice db propertyId userId with
          | .error e => .error e
          | .ok kwhPrice => .ok (some (k * kwhPrice))
        | none => .ok none
      match newCostBrl with
      | .error e => (.error e, db)
      | .ok cost =>
        match ConsumptionRepository.update db id parsed cost with
        | .error e => (.error e, db)
        | .ok (r', db') => (.ok r', db')

/-- `ConsumptionService.delete`: find through `findById`, then delete. -/
def delete (db : DB) (id propertyId userId : Nat) : Except AppError Unit × DB :=
  match findById db id propertyId userId with
  | .error e => (.error e, db)
  | .ok _ => (.ok (), ConsumptionRepository.delete db id)

end ConsumptionService

namespace AreaService

/-- `AreaService.validatePropertyOwnership`: property must exist (NotFound)
and be owned by the requester (Forbidden). -/
def validatePropertyOwnership (db : DB) (propertyId userId : Nat) :
    Except AppError Unit :=
  match db.findProperty propertyId with
  | none => .error (.notFound "Propriedade não encontrada")
  | some property =>
    if property.userId ≠ userId then .error (.forbidden "Acesso negado")
    else .ok ()

/-- `AreaService.findById`: after confirming property ownership, an area
that exists but is stored under a different property yields NotFound (the
source throws the same "Área não encontrada" for both cases). -/
def findById (db : DB) (id propertyId userId : Nat) : Except AppError Area :=
  match validatePropertyOwnership db propertyId userId with
  | .error e => .error e
  | .ok _ =>
    match db.findArea id with
    | none => .error (.notFound "Área não encontrada")
    | some area =>
      if area.propertyId ≠ propertyId then .error (.notFound "Área não encontrada")
      else .ok area

end AreaService

/-- Payload of `createDeviceSchema`: name required, brand/model optional,
powerWatts strictly positive when present. -/
structure CreateDeviceInput where
  name : String
  brand : Option String
  model : Option String
  powerWatts : Option Int
deriving DecidableEq, Repr

/-- Payload of `updateDeviceSchema`: every field optional. -/
structure UpdateDeviceInput where
  name : Option String
  brand : Option String
  model : Option String
  powerWatts : Option Int
deriving DecidableEq, Repr

/-- Value checks of `createDeviceSchema` (name 1..200 characters,
brand/model at most 100, powerWatts positive when present). -/
def parseCreateDevice (input : CreateDeviceInput) : Except AppError CreateDeviceInput :=
  if input.name.length = 0 then .error (.validation "Nome é obrigatório")
  else if 200 < input.name.length then .error (.validation "Dados inválidos")
  else if (input.brand.map (fun b => decide (100 < b.length))).getD false then
    .error (.validation "Dados inválidos")
  else if (input.model.map (fun m => decide (100 < m.length))).getD false then
    .error (.validation "Dados inválidos")
  else if (input.powerWatts.map (fun w => decide (w ≤ 0))).getD false then
    .error (.validation "powerWatts deve ser maior que zero")
  else .ok input

/-- Value checks of `updateDeviceSchema`. -/
def parseUpdateDevice (input : UpdateDeviceInput) : Except AppError UpdateDeviceInput :=
  if (input.name.map (fun n => decide (n.length = 0 ∨ 200 < n.length))).getD false then
    .error (.validation "Dados inválidos")
  else if (input.brand.map (fun b => decide (100 < b.length))).getD false then
    .error (.validation "Dados inválidos")
  else if (input.model.map (fun m => decide (100 < m.length))).getD false then
    .error (.validation "Dados inválidos")
  else if (input.powerWatts.map (fun w => decide (w ≤ 0))).getD false then
    .error (.validation "powerWatts deve ser maior que zero")
  else .ok input

/-- Insertion step of the ascending-by-name ordering Prisma applies in
`DeviceRepository.findAllByArea`. -/
def insertByNameAsc (d : Device) : List Device → List Device
  | [] => [d]
  | x :: xs => if decide (d.name ≤ x.name) then d :: x :: xs else x :: insertByNameAsc d xs

/-- Ascending-by-name sort (insertion sort) for device listings. -/
def sortByNameAsc : List Device → List Device
  | [] => []
  | x :: xs => insertByNameAsc x (sortByNameAsc xs)

/-- `DeviceRepository.findAllByArea`: the area's devices ordered by name. -/
def DeviceRepository.findAllByArea (db : DB) (areaId : Nat) : List Device :=
  sortByNameAsc (db.devices.filter (fun d => d.areaId == areaId))

/-- `DeviceRepository.create`. -/
def DeviceRepository.create (db : DB) (areaId : Nat) (data : CreateDeviceInput) :
    Device × DB :=
  let device : Device :=
    { id := db.nextId, areaId := areaId, name := data.name,
      brand := data.brand, model := data.model, powerWatts := data.powerWatts }
  (device, { db with devices := db.devices ++ [device], nextId := db.nextId + 1 })

/-- One defined entry of an `updateDeviceSchema` payload, as produced by
`Object.entries` after the undefined-filter. -/
inductive DeviceField where
  | name (v : String)
  | brand (v : String)
  | model (v : String)
  | powerWatts (v : Int)
deriving DecidableEq, Repr

/-- The `cleanData` computation of `DeviceRepository.update`. -/
def UpdateDeviceInput.entries (u : UpdateDeviceInput) : List DeviceField :=
  (u.name.map DeviceField.name).toList ++
  (u.brand.map DeviceField.brand).toList ++
  (u.model.map DeviceField.model).toList ++
  (u.powerWatts.map DeviceField.powerWatts).toList

/-- Assign one defined entry onto the stored row. -/
def Device.applyField (d : Device) : DeviceField → Device
  | .name v => { d with name := v }
  | .brand v => { d with brand := some v }
  | .model v => { d with model := some v }
  | .powerWatts v => { d with powerWatts := some v }

/-- `DeviceRepository.update`. -/
def DeviceRepository.update (db : DB) (id : Nat) (u : UpdateDeviceInput) :
    Except AppError (Device × DB) :=
  match db.findDevice id with
  | none => .error (.internal "Erro interno do servidor")
  | some d =>
    let d' := u.entries.foldl Device.applyField d
    .ok (d', { db with devices := db.devices.map (fun q => if q.id == id then d' else q) })

/-- `DeviceRepository.delete`, with the schema-level cascade that removes
device-attached consumption records. -/
def DeviceRepository.delete (db : DB) (id : Nat) : DB :=
  { db with
    devices := db.devices.filter (fun d => d.id ≠ id)
    consumptions := db.consumptions.filter (fun r => r.target ≠ .device id) }

namespace DeviceService

/-- `DeviceService.validateAreaOwnership`: property exists (NotFound), is
owned by the user (Forbidden), the area exists (NotFound), and the area
belongs to the property (Forbidden). -/
def validateAreaOwnership (db : DB) (areaId propertyId userId : Nat) :
    Except AppError Unit :=
  match db.findProperty propertyId with
  | none => .error (.notFound "Propriedade não encontrada")
  | some property =>
    if property.userId ≠ userId then .error (.forbidden "Acesso negado")
    else
      match db.findArea areaId with
      | none => .error (.notFound "Área não encontrada")
      | some area =>
        if area.propertyId ≠ propertyId then
          .error (.forbidden "Área não pertence a esta propriedade")
        else .ok ()

/-- `DeviceService.findById`: chain validation, then the device must exist
(NotFound) and belong to the claimed area (Forbidden). -/
def findById (db : DB) (id areaId propertyId userId : Nat) :
    Except AppError Device :=
  match validateAreaOwnership db areaId propertyId userId with
  | .error e => .error e
  | .ok _ =>
    match db.findDevice id with
    | none => .error (.notFound "Dispositivo não encontrado")
    | some device =>
      if device.areaId ≠ areaId then
        .error (.forbidden "Dispositivo não pertence a esta área")
      else .ok device

/-- `DeviceService.create`: parse the payload, walk the ownership chain,
then insert. Failures return the state unchanged. -/
def create (db : DB) (areaId propertyId userId : Nat) (input : CreateDeviceInput) :
    Except AppError Device × DB :=
  match parseCreateDevice input with
  | .error e => (.error e, db)
  | .ok data =>
    match validateAreaOwnership db areaId propertyId userId with
    | .error e => (.error e, db)
    | .ok _ =>
      let (device, db') := DeviceRepository.create db areaId data
      (.ok device, db')

/-- `DeviceService.findAll`: chain validation, then the ordered listing. -/
def findAll (db : DB) (areaId propertyId userId : Nat) :
    Except AppError (List Device) :=
  match validateAreaOwnership db areaId propertyId userId with
  | .error e => .error e
  | .ok _ => .ok (DeviceRepository.findAllByArea db areaId)

/-- `DeviceService.update`: resolve through `findById` (full chain), then
parse and write. -/
def update (db : DB) (id areaId propertyId userId : Nat) (input : UpdateDeviceInput) :
    Except AppError Device × DB :=
  match findById db id areaId propertyId userId with
  | .error e => (.error e, db)
  | .ok _ =>
    match parseUpdateDevice input with
    | .error e => (.error e, db)
    | .ok parsed =>
      match DeviceRepository.update db id parsed with
      | .error e => (.error e, db)
      | .ok (d', db') => (.ok d', db')

/-- `DeviceService.delete`: resolve through `findById`, then delete. -/
def delete (db : DB) (id areaId propertyId userId : Nat) :
    Except AppError Unit × DB :=
  match findById db id areaId propertyId userId with
  | .error e => (.error e, db)
  | .ok _ => (.ok (), DeviceRepository.delete db id)

end DeviceService

/-- Insertion step of the descending-by-reference-date ordering Prisma
applies in `ConsumptionRepository.findAllByTarget`. -/
def insertByDateDesc (r : ConsumptionRecord) :
    List ConsumptionRecord → List ConsumptionRecord
  | [] => [r]
  | x :: xs => if decide (x.referenceDate ≤ r.referenceDate) then r :: x :: xs
      else x :: insertByDateDesc r xs

/-- Descending-by-reference-date sort (insertion sort) for listings. -/
def sortByDateDesc : List ConsumptionRecord → List ConsumptionRecord
  | [] => []
  | x :: xs => insertByDateDesc x (sortByDateDesc xs)

/-- `ConsumptionRepository.findAllByTarget`: the target's records with an
optional period filter, most recent first. -/
def ConsumptionRepository.findAllByTarget (db : DB) (target : Target)
    (period : Option Period) : List ConsumptionRecord :=
  sortByDateDesc (db.consumptions.filter (fun r =>
    r.target == target &&
      (match period with | some p => r.period == p | none => true)))

/-- `ConsumptionService.findAllForDevice`: the full four-level chain in
strict top-down order, then the listing (the query-string parse happens
after the validations in the source and is modelled by the typed
`period` filter). -/
def ConsumptionService.findAllForDevice (db : DB)
    (deviceId areaId propertyId userId : Nat) (period : Option Period) :
    Except AppError (List ConsumptionRecord) :=
  match ConsumptionService.validatePropertyAndGetKwhPrice db propertyId userId with
  | .error e => .error e
  | .ok _ =>
    match ConsumptionService.validateAreaBelongsToProperty db areaId propertyId with
    | .error e => .error e
    | .ok _ =>
      match ConsumptionService.validateDeviceBelongsToArea db deviceId areaId with
      | .error e => .error e
      | .ok _ => .ok (ConsumptionRepository.findAllByTarget db (.device deviceId) period)

/-- `DistributorRepository.delete`. -/
def DistributorRepository.delete (db : DB) (id : Nat) : DB :=
  { db with distributors := db.distributors.filter (fun d => d.id ≠ id) }

namespace DistributorService

/-- `DistributorService.findById`: NotFound when absent, Forbidden when
owned by another user. -/
def findById (db : DB) (id requestingUserId : Nat) : Except AppError Distributor :=
  match db.findDistributor id with
  | none => .error (.notFound "Distribuidora não encontrada")
  | some distributor =>
    if distributor.userId ≠ requestingUserId then .error (.forbidden "Acesso negado")
    else .ok distributor

/-- `DistributorService.delete`: ownership check, then the dependent-
property guard runs before any deletion is attempted; only an unreferenced
distributor is removed. -/
def delete (db : DB) (id requestingUserId : Nat) : Except AppError Unit × DB :=
  match findById db id requestingUserId with
  | .error e => (.error e, db)
  | .ok _ =>
    if DistributorRepository.hasProperties db id then
      (.error (.conflict
        "Não é possível excluir uma distribuidora com propriedades vinculadas. Desvincule as propriedades primeiro."), db)
    else
      (.ok (), DistributorRepository.delete db id)

end DistributorService

/-- Login channel (`loginSchema.channel`). -/
inductive Channel where
  | WEB
  | MOBILE
deriving DecidableEq, Repr

/-- A user row as selected by `findUserByEmailWithPassword` (id, email,
stored bcrypt hash). -/
structure User where
  id : Nat
  email : String
  password : String
deriving DecidableEq, Repr

/-- A stored auth token (`AuthToken` / `ActiveToken`): `expiresAt` is set
for WEB logins and null for MOBILE; `revokedAt` is set on logout. -/
structure AuthToken where
  userId : Nat
  token : String
  channel : Channel
  expiresAt : Option Int
  revokedAt : Option Int
deriving DecidableEq, Repr

/-- A password-reset row (`PasswordReset`). -/
structure PasswordReset where
  userId : Nat
  token : String
  expiresAt : Int
  usedAt : Option Int
deriving DecidableEq, Repr

/-- State the auth service reads and writes, with the e-mail side effect
reified as the list of (recipient, resetToken) pairs handed to the
injected `sendPasswordResetEmail` collaborator. -/
structure AuthWorld where
  users : List User
  authTokens : List AuthToken
  passwordResets : List PasswordReset
  sentEmails : List (String × String)
deriving DecidableEq, Repr

/-- `AuthRepository.findUserByEmailWithPassword`. -/
def AuthWorld.findUserByEmail (w : AuthWorld) (email : String) : Option User :=
  w.users.find? (fun u => u.email == email)

/-- `AuthRepository.findActiveToken` (a plain unique lookup by token
string; despite the name it returns revoked and expired rows too). -/
def AuthWorld.findActiveToken (w : AuthWorld) (token : String) : Option AuthToken :=
  w.authTokens.find? (fun t => t.token == token)

/-- `AuthRepository.revokeToken`: stamp `revokedAt` on the row holding
this token string. -/
def AuthWorld.revokeToken (w : AuthWorld) (token : String) (now : Int) : AuthWorld :=
  { w with authTokens := w.authTokens.map (fun t =>
      if t.token == token then { t with revokedAt := some now } else t) }

/-- The result of matching the JWT expiry string of the environment
against the regex of `parseJwtExpiry`: a number and a unit, or no match. -/
inductive ExpiryStr where
  | seconds (value : Nat)
  | minutes (value : Nat)
  | hours (value : Nat)
  | days (value : Nat)
  | invalid
deriving DecidableEq, Repr

/-- `parseJwtExpiry`: unit multipliers in milliseconds, with the safe
fallback of 15 minutes when the string does not match. -/
def parseJwtExpiry : ExpiryStr → Int
  | .seconds v => v * 1000
  | .minutes v => v * 60 * 1000
  | .hours v => v * 60 * 60 * 1000
  | .days v => v * 24 * 60 * 60 * 1000
  | .invalid => 15 * 60 * 1000

/-- `PASSWORD_RESET_EXPIRES_MS` (1 hour). -/
def passwordResetExpiresMs : Int := 60 * 60 * 1000

namespace AuthService

/-- `AuthService.login` after the zod parse. The bcrypt comparison and the
JWT signature are external collaborators: `verify` models
`bcrypt.compare` and `newToken` the string `jwt.sign` produces. The
missing-user case sets `isValidPassword` to false and falls into the same
single throw as a wrong password. On success a token row is stored whose
expiry is `now + parseJwtExpiry` for WEB and null for MOBILE. -/
def login (verify : String → String → Bool) (w : AuthWorld)
    (email password : String) (channel : Channel) (now : Int)
    (webExpiresIn : ExpiryStr) (newToken : String) :
    Except AppError String × AuthWorld :=
  let user? := w.findUserByEmail email
  let isValidPassword :=
    match user? with
    | some u => verify password u.password
    | none => false
  match user?, isValidPassword with
  | some user, true =>
    let expiresAt : Option Int :=
      match channel with
      | .WEB => some (now + parseJwtExpiry webExpiresIn)
      | .MOBILE => none
    (.ok newToken,
      { w with authTokens := w.authTokens ++
          [{ userId := user.id, token := newToken, channel := channel,
             expiresAt := expiresAt, revokedAt := none }] })
  | _, _ => (.error (.unauthorized "Credenciais inválidas"), w)

/-- `AuthService.logout`: unknown token and already-revoked token both
fail with Unauthorized; otherwise the revocation instant is stamped. -/
def logout (w : AuthWorld) (token : String) (now : Int) :
    Except AppError Unit × AuthWorld :=
  match w.findActiveToken token with
  | none => (.error (.unauthorized "Token inválido"), w)
  | some stored =>
    if stored.revokedAt ≠ none then
      (.error (.unauthorized "Token já foi revogado"), w)
    else
      (.ok (), w.revokeToken token now)

/-- `AuthService.forgotPassword` after the zod parse: silently succeeds
for an unknown e-mail; for a known e-mail it stores a reset row and hands
the e-mail to the notification collaborator. `resetToken` models the
`randomUUID` value. -/
def forgotPassword (w : AuthWorld) (email : String) (resetToken : String)
    (now : Int) : Except AppError Unit × AuthWorld :=
  match w.findUserByEmail email with
  | none => (.ok (), w)
  | some user =>
    (.ok (),
      { w with
        passwordResets := w.passwordResets ++
          [{ userId := user.id, token := resetToken,
             expiresAt := now + passwordResetExpiresMs, usedAt := none }]
        sentEmails := w.sentEmails ++ [(email, resetToken)] })

end AuthService

/-- The stored-token checks of `createAuthenticateMiddleware` (lines after
the JWT signature verification, which is an external collaborator): the
row must exist, must not be revoked, and a set expiry must not lie in the
past. -/
def authenticateToken (w : AuthWorld) (token : String) (now : Int) :
    Except AppError Unit :=
  match w.findActiveToken token with
  | none => .error (.unauthorized "Token inválido")
  | some stored =>
    if stored.revokedAt ≠ none then
      .error (.unauthorized "Token revogado")
    else
      match stored.expiresAt with
      | some e => if e < now then .error (.unauthorized "Token expirado") else .ok ()
      | none => .ok ()

/-- One defined entry of an `updatePropertySchema` payload, as produced by
`Object.entries` after the undefined-filter. -/
inductive PropertyField where
  | distributorId (v : Nat)
  | name (v : String)
  | address (v : String)
  | city (v : String)
  | state (v : String)
  | zipCode (v : String)
deriving DecidableEq, Repr

/-- Payload of `updatePropertySchema`: every field optional, `none` for a
field absent from the body (zod `optional` admits no explicit null). -/
structure UpdatePropertyInput where
  distributorId : Option Nat
  name : Option String
  address : Option String
  city : Option String
  state : Option String
  zipCode : Option String
deriving DecidableEq, Repr

/-- The `cleanData` computation of `PropertyRepository.update`: the list of
entries whose value is defined, in object-key order. -/
def UpdatePropertyInput.entries (u : UpdatePropertyInput) : List PropertyField :=
  (u.distributorId.map PropertyField.distributorId).toList ++
  (u.name.map PropertyField.name).toList ++
  (u.address.map PropertyField.address).toList ++
  (u.city.map PropertyField.city).toList ++
  (u.state.map PropertyField.state).toList ++
  (u.zipCode.map PropertyField.zipCode).toList

/-- Assign one defined entry onto the stored row (the object spread). -/
def Property.applyField (p : Property) : PropertyField → Property
  | .distributorId v => { p with distributorId := v }
  | .name v => { p with name := v }
  | .address v => { p with address := some v }
  | .city v => { p with city := some v }
  | .state v => { p with state := some v }
  | .zipCode v => { p with zipCode := some v }

/-- `PropertyRepository.update`: filter the undefined entries, spread the
rest over the stored row. A missing row would surface as a generic
internal error (Prisma P2025); the service always checks existence
first. -/
def PropertyRepository.update (db : DB) (id : Nat) (u : UpdatePropertyInput) :
    Except AppError (Property × DB) :=
  match db.findProperty id with
  | none => .error (.internal "Erro interno do servidor")
  | some p =>
    let p' := u.entries.foldl Property.applyField p
    .ok (p', { db with properties := db.properties.map (fun q => if q.id == id then p' else q) })

/-- One defined entry of an `updateDistributorSchema` payload. CNPJ and
ownership are not part of the schema — they are immutable. -/
inductive DistributorField where
  | name (v : String)
  | electricalSystem (v : ElectricalSystem)
  | workingVoltage (v : Nat)
  | kwhPrice (v : Rat)
  | taxRate (v : Rat)
  | publicLightingFee (v : Rat)
deriving DecidableEq, Repr

/-- Payload of `updateDistributorSchema`: every field optional. -/
structure UpdateDistributorInput where
  name : Option String
  electricalSystem : Option ElectricalSystem
  workingVoltage : Option Nat
  kwhPrice : Option Rat
  taxRate : Option Rat
  publicLightingFee : Option Rat
deriving DecidableEq, Repr

/-- The `cleanData` computation of `DistributorRepository.update`. -/
def UpdateDistributorInput.entries (u : UpdateDistributorInput) : List DistributorField :=
  (u.name.map DistributorField.name).toList ++
  (u.electricalSystem.map DistributorField.electricalSystem).toList ++
  (u.workingVoltage.map DistributorField.workingVoltage).toList ++
  (u.kwhPrice.map DistributorField.kwhPrice).toList ++
  (u.taxRate.map DistributorField.taxRate).toList ++
  (u.publicLightingFee.map DistributorField.publicLightingFee).toList

/-- Assign one defined entry onto the stored row. -/
def Distributor.applyField (d : Distributor) : DistributorField → Distributor
  | .name v => { d with name := v }
  | .electricalSystem v => { d with electricalSystem := v }
  | .workingVoltage v => { d with workingVoltage := v }
  | .kwhPrice v => { d with kwhPrice := v }
  | .taxRate v => { d with taxRate := some v }
  | .publicLightingFee v => { d with publicLightingFee := some v }

/-- `DistributorRepository.update`. -/
def DistributorRepository.update (db : DB) (id : Nat) (u : UpdateDistributorInput) :
    Except AppError (Distributor × DB) :=
  match db.findDistributor id with
  | none => .error (.internal "Erro interno do servidor")
  | some d =>
    let d' := u.entries.foldl Distributor.applyField d
    .ok (d', { db with distributors := db.distributors.map (fun q => if q.id == id then d' else q) })

end Lumitrack

deriving instance DecidableEq for Except

namespace Lumitrack

/-!
Concrete fixtures used by the witness and counterexample theorems. Each
claim uses its own fixtures, mirroring the scenarios of the test suite: a
distributor with price 0.75 per kWh, properties named after the tests,
and small integer ids.
-/

/-- Distributor of user 1 with the test-suite price of 0.75 per kWh. -/
def fixDistributor : Distributor :=
  { id := 100, userId := 1, name := "CEMIG", cnpj := "06.981.180/0001-16",
    electricalSystem := .TRIPHASIC, workingVoltage := 220, kwhPrice := 3/4,
    taxRate := none, publicLightingFee := none }

/-- Property 10 of user 1, linked to distributor 100. -/
def fixProperty : Property :=
  { id := 10, userId := 1, distributorId := 100, name := "Casa",
    address := none, city := none, state := none, zipCode := none }

/-- A daily consumption payload of 10 kWh, as in the test suite. -/
def fixInput : CreateConsumptionInput :=
  { period := .DAILY, referenceDate := 100, kwhConsumed := 10, notes := none }

-- C3 fixtures

/-- State for the C3 witness: one user, one distributor, one property. -/
def dbC3 : DB :=
  { distributors := [fixDistributor], properties := [fixProperty], areas := [],
    devices := [], consumptions := [], nextId := 50 }

/-- The record the C3 creation witness produces (cost left as the literal
product 10 × 0.75). -/
def recC3 : ConsumptionRecord :=
  { id := 50, target := .property 10, period := .DAILY, referenceDate := 100,
    kwhConsumed := 10, costBrl := (10 : Rat) * ((3 : Rat)/4), notes := none }

/-- dbC3 after the witness creation. -/
def dbC3' : DB :=
  { dbC3 with consumptions := [recC3], nextId := 51 }

/-- recC3 after the witness kwh update to 20 (cost recomputed). -/
def recC3up : ConsumptionRecord :=
  { recC3 with kwhConsumed := 20, costBrl := (20 : Rat) * ((3 : Rat)/4) }

/-- dbC3' after the witness kwh update. -/
def dbC3up : DB :=
  { dbC3' with consumptions := [recC3up] }

/-- recC3 after the witness notes-only update (cost untouched). -/
def recC3n : ConsumptionRecord :=
  { recC3 with notes := some "Atualizado" }

/-- dbC3' after the witness notes-only update. -/
def dbC3n : DB :=
  { dbC3' with consumptions := [recC3n] }

-- C1 fixtures: user 1 (A) and user 2 (B), each owning a property; A owns
-- consumption record 7.

/-- Distributor of user 2 (B). -/
def distC1B : Distributor :=
  { id := 101, userId := 2, name := "Enel", cnpj := "61.695.227/0001-93",
    electricalSystem := .BIPHASIC, workingVoltage := 127, kwhPrice := 1/2,
    taxRate := none, publicLightingFee := none }

/-- Property 11 of user 2 (B). -/
def propC1B : Property :=
  { id := 11, userId := 2, distributorId := 101, name := "Apartamento",
    address := none, city := none, state := none, zipCode := none }

/-- A consumption record owned by user 1 through property 10. -/
def recC1A : ConsumptionRecord :=
  { id := 7, target := .property 10, period := .DAILY, referenceDate := 100,
    kwhConsumed := 10, costBrl := 15/2, notes := none }

/-- State for C1: both users, their properties, and record 7 of user 1. -/
def dbC1 : DB :=
  { distributors := [fixDistributor, distC1B],
    properties := [fixProperty, propC1B],
    areas := [], devices := [], consumptions := [recC1A], nextId := 12 }

-- C2 fixtures: user 1 owns properties 10 and 11, area 20 and area 21 live
-- under property 10, device 30 lives under area 20.

/-- Second property of user 1, also linked to distributor 100. -/
def propC2B : Property :=
  { id := 11, userId := 1, distributorId := 100, name := "Escritório",
    address := none, city := none, state := none, zipCode := none }

/-- Area 20 under property 10. -/
def areaC2 : Area :=
  { id := 20, propertyId := 10, name := "Sala", description := none }

/-- Area 21 under property 10. -/
def areaC2b : Area :=
  { id := 21, propertyId := 10, name := "Quarto", description := none }

/-- Device 30 under area 20. -/
def deviceC2 : Device :=
  { id := 30, areaId := 20, name := "Ar-condicionado", brand := none,
    model := none, powerWatts := some 1200 }

/-- State for C2: one owner, two properties, two areas, one device. -/
def dbC2 : DB :=
  { distributors := [fixDistributor],
    properties := [fixProperty, propC2B],
    areas := [areaC2, areaC2b], devices := [deviceC2],
    consumptions := [], nextId := 60 }

-- C4 fixtures

/-- Area 40 under property 10, used for the differing-target clause. -/
def areaC4 : Area :=
  { id := 40, propertyId := 10, name := "Cozinha", description := none }

/-- Device 45 under area 40, used for the device-target clauses. -/
def deviceC4 : Device :=
  { id := 45, areaId := 40, name := "Geladeira", brand := none,
    model := none, powerWatts := some 150 }

/-- State for C4: one owner, one property, one area, one device, no
records yet. -/
def dbC4 : DB :=
  { distributors := [fixDistributor], properties := [fixProperty],
    areas := [areaC4], devices := [deviceC4], consumptions := [], nextId := 70 }

/-- The record the first C4 creation stores. -/
def recC4 : ConsumptionRecord :=
  { id := 70, target := .property 10, period := .DAILY, referenceDate := 100,
    kwhConsumed := 10, costBrl := (10 : Rat) * ((3 : Rat)/4), notes := none }

/-- dbC4 after the first creation. -/
def dbC4' : DB :=
  { dbC4 with consumptions := [recC4], nextId := 71 }

/-- A payload differing from fixInput only in the period kind. -/
def inC4b : CreateConsumptionInput :=
  { fixInput with period := .MONTHLY }

/-- The record the C4 area-target creation stores. -/
def recC4a : ConsumptionRecord :=
  { id := 70, target := .area 40, period := .DAILY, referenceDate := 100,
    kwhConsumed := 10, costBrl := (10 : Rat) * ((3 : Rat)/4), notes := none }

/-- dbC4 after the area-target creation. -/
def dbC4a : DB :=
  { dbC4 with consumptions := [recC4a], nextId := 71 }

/-- The record the C4 device-target creation stores. -/
def recC4d : ConsumptionRecord :=
  { id := 70, target := .device 45, period := .DAILY, referenceDate := 100,
    kwhConsumed := 10, costBrl := (10 : Rat) * ((3 : Rat)/4), notes := none }

/-- dbC4 after the device-target creation. -/
def dbC4d : DB :=
  { dbC4 with consumptions := [recC4d], nextId := 71 }

-- C5 device-payload fixtures

/-- A valid device-creation payload for the C5 witness. -/
def devC5in : CreateDeviceInput :=
  { name := "Ventilador", brand := none, model := none, powerWatts := some 50 }

/-- A valid device-update payload for the C5 witness. -/
def updC5in : UpdateDeviceInput :=
  { name := some "Ventilador de teto", brand := none, model := none,
    powerWatts := none }

-- C6 fixtures

/-- State for C6, conflict case: property 10 references distributor 100. -/
def dbC6 : DB :=
  { distributors := [fixDistributor], properties := [fixProperty],
    areas := [], devices := [], consumptions := [], nextId := 80 }

/-- State for C6, success case: no property references distributor 100. -/
def dbC6b : DB :=
  { distributors := [fixDistributor], properties := [],
    areas := [], devices := [], consumptions := [], nextId := 81 }

-- C7 fixtures

/-- The registered user of the auth witnesses. -/
def userC7 : User :=
  { id := 1, email := "joao@example.com", password := "hashSenha123" }

/-- Auth state for C7: one user, nothing else. -/
def wC7 : AuthWorld :=
  { users := [userC7], authTokens := [], passwordResets := [], sentEmails := [] }

-- C8 fixtures

/-- Auth state for C8 logins: one user, no tokens yet. -/
def wC8 : AuthWorld :=
  { users := [userC7], authTokens := [], passwordResets := [], sentEmails := [] }

/-- A stored WEB token expiring at instant 500. -/
def tokC8e : AuthToken :=
  { userId := 1, token := "tokweb", channel := .WEB, expiresAt := some 500,
    revokedAt := none }

/-- Auth state holding the expiring WEB token. -/
def wC8e : AuthWorld :=
  { wC8 with authTokens := [tokC8e] }

/-- A stored MOBILE token with no expiry. -/
def tokC8m : AuthToken :=
  { userId := 1, token := "tokmob", channel := .MOBILE, expiresAt := none,
    revokedAt := none }

/-- Auth state holding the MOBILE token. -/
def wC8m : AuthWorld :=
  { wC8 with authTokens := [tokC8m] }

/-- wC8m after logging the MOBILE token out at instant 5. -/
def wC8r : AuthWorld :=
  { wC8 with authTokens := [{ tokC8m with revokedAt := some 5 }] }

-- C9 fixtures

/-- Auth state for C9: one registered user. -/
def wC9 : AuthWorld :=
  { users := [userC7], authTokens := [], passwordResets := [], sentEmails := [] }

-- C10 fixtures

/-- A stored consumption record for the C10 repository-update witness. -/
def recC10 : ConsumptionRecord :=
  { id := 9, target := .property 10, period := .MONTHLY, referenceDate := 31,
    kwhConsumed := 100, costBrl := 75, notes := none }

/-- State for C10: distributor, property and one consumption record. -/
def dbC10 : DB :=
  { distributors := [fixDistributor], properties := [fixProperty],
    areas := [], devices := [], consumptions := [recC10], nextId := 90 }

/-- A property-update payload supplying only name and city. -/
def upPropC10 : UpdatePropertyInput :=
  { distributorId := none, name := some "Casa Nova", address := none,
    city := some "Belo Horizonte", state := none, zipCode := none }

/-- A distributor-update payload supplying only the price. -/
def upDistC10 : UpdateDistributorInput :=
  { name := none, electricalSystem := none, workingVoltage := none,
    kwhPrice := some 1, taxRate := none, publicLightingFee := none }

/-- A consumption-update payload supplying only notes. -/
def upConsC10 : UpdateConsumptionInput :=
  { kwhConsumed := none, notes := some "Observação" }

end Lumitrack

namespace Lumitrack

/-!
Helper lemmas shared by the claim theorems.
-/

/-- Inversion for a successful create-payload validation: the payload is
returned unchanged. -/
theorem parseCreate_ok {input data : CreateConsumptionInput}
    (h : ConsumptionService.parseAndValidateCreate input = .ok data) : data = input := by
  unfold ConsumptionService.parseAndValidateCreate at h
  split at h
  · simp at h
  · split at h
    · split at h
      · simp at h
      · exact (Except.ok.inj h).symm
    · exact (Except.ok.inj h).symm

/-- Inversion for a successful update-payload validation. -/
theorem parseUpdate_ok {input data : UpdateConsumptionInput}
    (h : ConsumptionService.parseAndValidateUpdate input = .ok data) : data = input := by
  unfold ConsumptionService.parseAndValidateUpdate at h
  split at h
  · split at h
    · simp at h
    · split at h
      · split at h
        · simp at h
        · exact (Except.ok.inj h).symm
      · exact (Except.ok.inj h).symm
  · split at h
    · split at h
      · simp at h
      · exact (Except.ok.inj h).symm
    · exact (Except.ok.inj h).symm

/-- A successful tariff resolution returns exactly the linked
distributor's price. -/
theorem validate_ok_price {db : DB} {propertyId userId : Nat} {price : Rat}
    {property : Property} {d : Distributor}
    (hp : db.findProperty propertyId = some property)
    (hd : db.findDistributor property.distributorId = some d)
    (h : ConsumptionService.validatePropertyAndGetKwhPrice db propertyId userId = .ok price) :
    price = d.kwhPrice := by
  unfold ConsumptionService.validatePropertyAndGetKwhPrice at h
  rw [hp] at h
  dsimp only at h
  split at h
  · simp at h
  · rw [hd] at h
    exact (Except.ok.inj h).symm

/-- Inversion for a successful repository-level consumption update. -/
theorem repoUpdate_ok {db : DB} {id : Nat} {data : UpdateConsumptionInput}
    {cost : Option Rat} {r1 : ConsumptionRecord} {db1 : DB}
    (h : ConsumptionRepository.update db id data cost = .ok (r1, db1)) :
    ∃ r0, db.findConsumption id = some r0 ∧ r1 = r0.applyUpdate data cost := by
  unfold ConsumptionRepository.update at h
  split at h
  · simp at h
  next r0 hfind =>
    refine ⟨r0, hfind, ?_⟩
    simp at h
    exact h.1.symm

/-- C3: for every successful consumption-record creation with kwhConsumed K
against a property whose linked distributor has price-per-kWh P, the stored
cost equals K×P exactly; for every successful update whose payload contains
kwhConsumed K′, the stored cost is recomputed to K′×P from the current
tariff price; and for every update whose payload does not contain
kwhConsumed (notes only), the previously stored cost is left unchanged. -/
theorem C3_cost_determinism :
    (∀ (db : DB) (propertyId userId : Nat) (input : CreateConsumptionInput)
       (r : ConsumptionRecord) (db' : DB) (property : Property) (d : Distributor),
       ConsumptionService.createForProperty db propertyId userId input = (.ok r, db') →
       db.findProperty propertyId = some property →
       db.findDistributor property.distributorId = some d →
       r.kwhConsumed = input.kwhConsumed ∧ r.costBrl = input.kwhConsumed * d.kwhPrice) ∧
    (∀ (db : DB) (id propertyId userId : Nat) (k : Rat) (nts : Option String)
       (r' : ConsumptionRecord) (db' : DB) (property : Property) (d : Distributor),
       ConsumptionService.update db id propertyId userId
         { kwhConsumed := some k, notes := nts } = (.ok r', db') →
       db.findProperty propertyId = some property →
       db.findDistributor property.distributorId = some d →
       r'.kwhConsumed = k ∧ r'.costBrl = k * d.kwhPrice) ∧
    (∀ (db : DB) (id propertyId userId : Nat) (nts : Option String)
       (r0 r' : ConsumptionRecord) (db' : DB),
       db.findConsumption id = some r0 →
       ConsumptionService.update db id propertyId userId
         { kwhConsumed := none, notes := nts } = (.ok r', db') →
       r'.costBrl = r0.costBrl ∧ r'.kwhConsumed = r0.kwhConsumed) := by
  refine ⟨?_, ?_, ?_⟩
  · intro db propertyId userId input r db' property d hrun hp hd
    unfold ConsumptionService.createForProperty at hrun
    split at hrun
    · simp at hrun
    next data hparse =>
      have hdata := parseCreate_ok hparse
      subst hdata
      split at hrun
      · simp at hrun
      next price hval =>
        have hprice := validate_ok_price hp hd hval
        subst hprice
        split at hrun
        · simp at hrun
        · simp [ConsumptionRepository.create] at hrun
          obtain ⟨hr, -⟩ := hrun
          subst hr
          exact ⟨rfl, rfl⟩
  · intro db id propertyId userId k nts r' db' property d hrun hp hd
    unfold ConsumptionService.update at hrun
    split at hrun
    · simp at hrun
    next rec0 hfind0 =>
      split at hrun
      · simp at hrun
      next parsed hparse =>
        have hparsed := parseUpdate_ok hparse
        subst hparsed
        split at hrun
        next k2 heq =>
          simp at heq
          subst heq
          split at hrun
          · simp at hrun
          next price hval =>
            have hprice := validate_ok_price hp hd hval
            subst hprice
            dsimp only at hrun
            split at hrun
            · simp at hrun
            next r1 db1 hrep =>
              obtain ⟨r0, hf, hr1⟩ := repoUpdate_ok hrep
              simp at hrun
              obtain ⟨h1, -⟩ := hrun
              subst h1
              subst hr1
              cases nts <;>
                simp [ConsumptionRecord.applyUpdate, UpdateConsumptionInput.entries,
                  ConsumptionRecord.applyField]
        next heq => simp at heq
  · intro db id propertyId userId nts r0 r' db' hfind hrun
    unfold ConsumptionService.update at hrun
    split at hrun
    · simp at hrun
    next rec0 hfind0 =>
      split at hrun
      · simp at hrun
      next parsed hparse =>
        have hparsed := parseUpdate_ok hparse
        subst hparsed
        split at hrun
        next k2 heq => simp at heq
        next heq =>
          dsimp only at hrun
          split at hrun
          · simp at hrun
          next r1 db1 hrep =>
            obtain ⟨r2, hf, hr1⟩ := repoUpdate_ok hrep
            rw [hfind] at hf
            have hr20 : r2 = r0 := (Option.some.inj hf).symm
            subst hr20
            simp at hrun
            obtain ⟨h1, -⟩ := hrun
            subst h1
            subst hr1
            cases nts <;>
              simp [ConsumptionRecord.applyUpdate, UpdateConsumptionInput.entries,
                ConsumptionRecord.applyField]

/-- Witness for C3 at the concrete scenario of the test suite: price 0.75,
creation with 10 kWh, update to 20 kWh, and a notes-only update. -/
theorem C3_cost_determinism_witness :
    (ConsumptionService.createForProperty dbC3 10 1 fixInput = (.ok recC3, dbC3') ∧
     recC3.kwhConsumed = fixInput.kwhConsumed ∧
     recC3.costBrl = fixInput.kwhConsumed * fixDistributor.kwhPrice) ∧
    (ConsumptionService.update dbC3' 50 10 1
       { kwhConsumed := some 20, notes := none } = (.ok recC3up, dbC3up) ∧
     recC3up.kwhConsumed = 20 ∧ recC3up.costBrl = 20 * fixDistributor.kwhPrice) ∧
    (ConsumptionService.update dbC3' 50 10 1
       { kwhConsumed := none, notes := some "Atualizado" } = (.ok recC3n, dbC3n) ∧
     recC3n.costBrl = recC3.costBrl ∧ recC3n.kwhConsumed = recC3.kwhConsumed) := by
  refine ⟨⟨by rfl, ?_⟩, ⟨by rfl, ?_⟩, ⟨by rfl, ?_⟩⟩
  · exact C3_cost_determinism.1 dbC3 10 1 fixInput recC3 dbC3' fixProperty fixDistributor
      (by rfl) (by rfl) (by rfl)
  · exact C3_cost_determinism.2.1 dbC3' 50 10 1 20 none recC3up dbC3up fixProperty fixDistributor
      (by rfl) (by rfl) (by rfl)
  · exact C3_cost_determinism.2.2 dbC3' 50 10 1 (some "Atualizado") recC3 recC3n dbC3n
      (by rfl) (by rfl)

/-- C1: user B (id 2) owns property 11; record 7 belongs to user A (id 1)
through property 10. Yet `ConsumptionService.findById` invoked by B with
B's own propertyId returns A's record, `update` mutates it, and `delete`
removes it: the ownership claim of the spec is right and the code is
wrong (the source even comments "Garante que o record ainda pertence à
property" over a no-op `void record`). This theorem evaluates the code at
the failing input. -/
theorem C1_ownership_transitivity_code_bug :
    (dbC1.findProperty 10).map Property.userId = some 1 ∧
    (dbC1.findProperty 11).map Property.userId = some 2 ∧
    recC1A.target = .property 10 ∧
    ConsumptionService.findById dbC1 7 11 2 = .ok recC1A ∧
    (ConsumptionService.update dbC1 7 11 2
      { kwhConsumed := none, notes := some "B escreveu aqui" }).1 =
      .ok { recC1A with notes := some "B escreveu aqui" } ∧
    (ConsumptionService.delete dbC1 7 11 2).1 = .ok () ∧
    (ConsumptionService.delete dbC1 7 11 2).2.findConsumption 7 = none :=
  ⟨rfl, rfl, rfl, rfl, rfl, rfl, rfl⟩

/-- C2 counterexample: user 1 owns both property 10 and property 11; area
20 is stored under property 10. Referencing area 20 under the owned
property 11 makes `ConsumptionService.createForArea` fail with Forbidden,
not NotFound as the claim states; `DeviceService.findById` does the same
for a device referenced under the wrong (owned) area. -/
theorem C2_mismatch_notfound_counterexample :
    (dbC2.findProperty 11).map Property.userId = some 1 ∧
    (dbC2.findArea 20).map Area.propertyId = some 10 ∧
    ConsumptionService.createForArea dbC2 20 11 1 fixInput =
      (.error (.forbidden "Área não pertence a esta propriedade"), dbC2) ∧
    (dbC2.findDevice 30).map Device.areaId = some 20 ∧
    (dbC2.findArea 21).map Area.propertyId = some 10 ∧
    DeviceService.findById dbC2 30 21 10 1 =
      .error (.forbidden "Dispositivo não pertence a esta área") :=
  ⟨rfl, rfl, rfl, rfl, rfl, rfl⟩

/-- C2 amended: when the requesting user owns the top-level property and a
child id claims a parent it does not belong to, `AreaService` answers
NotFound, but the area/device validators of `ConsumptionService` and the
device check of `DeviceService` answer Forbidden. -/
theorem C2_mismatch_amended :
    (∀ (db : DB) (id propertyId userId : Nat) (property : Property) (area : Area),
       db.findProperty propertyId = some property → property.userId = userId →
       db.findArea id = some area → area.propertyId ≠ propertyId →
       AreaService.findById db id propertyId userId =
         .error (.notFound "Área não encontrada")) ∧
    (∀ (db : DB) (areaId propertyId : Nat) (area : Area),
       db.findArea areaId = some area → area.propertyId ≠ propertyId →
       ConsumptionService.validateAreaBelongsToProperty db areaId propertyId =
         .error (.forbidden "Área não pertence a esta propriedade")) ∧
    (∀ (db : DB) (deviceId areaId : Nat) (device : Device),
       db.findDevice deviceId = some device → device.areaId ≠ areaId →
       ConsumptionService.validateDeviceBelongsToArea db deviceId areaId =
         .error (.forbidden "Dispositivo não pertence a esta área")) ∧
    (∀ (db : DB) (id areaId propertyId userId : Nat) (property : Property)
       (area : Area) (device : Device),
       db.findProperty propertyId = some property → property.userId = userId →
       db.findArea areaId = some area → area.propertyId = propertyId →
       db.findDevice id = some device → device.areaId ≠ areaId →
       DeviceService.findById db id areaId propertyId userId =
         .error (.forbidden "Dispositivo não pertence a esta área")) := by
  refine ⟨?_, ?_, ?_, ?_⟩
  · intro db id propertyId userId property area hp hu ha hmis
    unfold AreaService.findById AreaService.validatePropertyOwnership
    simp [hp, hu, ha, hmis]
  · intro db areaId propertyId area ha hmis
    unfold ConsumptionService.validateAreaBelongsToProperty
    simp [ha, hmis]
  · intro db deviceId areaId device hd hmis
    unfold ConsumptionService.validateDeviceBelongsToArea
    simp [hd, hmis]
  · intro db id areaId propertyId userId property area device hp hu ha hap hd hmis
    unfold DeviceService.findById DeviceService.validateAreaOwnership
    simp [hp, hu, ha, hap, hd, hmis]

/-- Witness for the amended C2 on the concrete fixture state. -/
theorem C2_mismatch_amended_witness :
    (dbC2.findProperty 11 = some propC2B ∧ propC2B.userId = 1 ∧
     dbC2.findArea 20 = some areaC2 ∧ areaC2.propertyId ≠ 11 ∧
     AreaService.findById dbC2 20 11 1 = .error (.notFound "Área não encontrada")) ∧
    (ConsumptionService.validateAreaBelongsToProperty dbC2 20 11 =
      .error (.forbidden "Área não pertence a esta propriedade")) ∧
    (dbC2.findDevice 30 = some deviceC2 ∧ deviceC2.areaId ≠ 21 ∧
     ConsumptionService.validateDeviceBelongsToArea dbC2 30 21 =
       .error (.forbidden "Dispositivo não pertence a esta área")) ∧
    (DeviceService.findById dbC2 30 21 10 1 =
      .error (.forbidden "Dispositivo não pertence a esta área")) := by
  refine ⟨⟨rfl, rfl, rfl, by decide, ?_⟩, ?_, ⟨rfl, by decide, ?_⟩, ?_⟩
  · exact C2_mismatch_amended.1 dbC2 20 11 1 propC2B areaC2 rfl rfl rfl (by decide)
  · exact C2_mismatch_amended.2.1 dbC2 20 11 areaC2 rfl (by decide)
  · exact C2_mismatch_amended.2.2.1 dbC2 30 21 deviceC2 rfl (by decide)
  · exact C2_mismatch_amended.2.2.2 dbC2 30 21 10 1 fixProperty areaC2b deviceC2
      rfl rfl rfl rfl rfl (by decide)

/-- find? skips a prefix in which nothing matches. -/
theorem find?_append_none {α} (p : α → Bool) {l1 : List α} (l2 : List α)
    (h : l1.find? p = none) : (l1 ++ l2).find? p = l2.find? p := by
  induction l1 with
  | nil => rfl
  | cons a l ih =>
    rw [List.cons_append]
    cases hp : p a with
    | false =>
      rw [List.find?_cons_of_neg _ (by simp [hp])]
      rw [List.find?_cons_of_neg _ (by simp [hp])] at h
      exact ih h
    | true =>
      rw [List.find?_cons_of_pos _ hp] at h
      simp at h

/-- Inversion of a successful property-level creation: the payload passed
validation, the duplicate guard found nothing, and the state grew by
exactly the new record. -/
theorem createForProperty_ok_inv
    {db : DB} {propertyId userId : Nat} {input : CreateConsumptionInput}
    {r : ConsumptionRecord} {db' : DB}
    (h : ConsumptionService.createForProperty db propertyId userId input = (.ok r, db')) :
    ConsumptionService.parseAndValidateCreate input = .ok input ∧
    ConsumptionRepository.findByTargetAndPeriod db (.property propertyId)
      input.period input.referenceDate = none ∧
    db' = { db with consumptions := db.consumptions ++ [r], nextId := db.nextId + 1 } ∧
    r.target = .property propertyId ∧ r.period = input.period ∧
    r.referenceDate = input.referenceDate ∧
    ∃ price, ConsumptionService.validatePropertyAndGetKwhPrice db propertyId userId = .ok price := by
  unfold ConsumptionService.createForProperty at h
  split at h
  · simp at h
  next data hparse =>
    have hdata := parseCreate_ok hparse
    subst hdata
    split at h
    · simp at h
    next price hval =>
      split at h
      · simp at h
      next hdup =>
        simp [ConsumptionRepository.create] at h
        obtain ⟨hr, hdb⟩ := h
        subst hr
        subst hdb
        exact ⟨hparse, hdup, rfl, rfl, rfl, rfl, price, hval⟩

/-- The tariff resolution reads only the property and distributor tables. -/
theorem validate_same_tables (db1 db2 : DB) (propertyId userId : Nat)
    (hp : db2.properties = db1.properties) (hd : db2.distributors = db1.distributors) :
    ConsumptionService.validatePropertyAndGetKwhPrice db2 propertyId userId =
      ConsumptionService.validatePropertyAndGetKwhPrice db1 propertyId userId := by
  unfold ConsumptionService.validatePropertyAndGetKwhPrice DB.findProperty DB.findDistributor
  rw [hp, hd]

/-- The area-membership validation reads only the area table. -/
theorem validateArea_same (db1 db2 : DB) (areaId propertyId : Nat)
    (h : db2.areas = db1.areas) :
    ConsumptionService.validateAreaBelongsToProperty db2 areaId propertyId =
      ConsumptionService.validateAreaBelongsToProperty db1 areaId propertyId := by
  unfold ConsumptionService.validateAreaBelongsToProperty DB.findArea
  rw [h]

/-- The device-membership validation reads only the device table. -/
theorem validateDevice_same (db1 db2 : DB) (deviceId areaId : Nat)
    (h : db2.devices = db1.devices) :
    ConsumptionService.validateDeviceBelongsToArea db2 deviceId areaId =
      ConsumptionService.validateDeviceBelongsToArea db1 deviceId areaId := by
  unfold ConsumptionService.validateDeviceBelongsToArea DB.findDevice
  rw [h]

/-- Inversion of a successful area-level creation: payload valid, chain
validated, duplicate guard empty, state grown by exactly the new record. -/
theorem createForArea_ok_inv
    {db : DB} {areaId propertyId userId : Nat} {input : CreateConsumptionInput}
    {r : ConsumptionRecord} {db' : DB}
    (h : ConsumptionService.createForArea db areaId propertyId userId input = (.ok r, db')) :
    ConsumptionService.parseAndValidateCreate input = .ok input ∧
    ConsumptionRepository.findByTargetAndPeriod db (.area areaId)
      input.period input.referenceDate = none ∧
    db' = { db with consumptions := db.consumptions ++ [r], nextId := db.nextId + 1 } ∧
    r.target = .area areaId ∧ r.period = input.period ∧
    r.referenceDate = input.referenceDate ∧
    (∃ price, ConsumptionService.validatePropertyAndGetKwhPrice db propertyId userId = .ok price) ∧
    ConsumptionService.validateAreaBelongsToProperty db areaId propertyId = .ok () := by
  unfold ConsumptionService.createForArea at h
  split at h
  · simp at h
  next data hparse =>
    have hdata := parseCreate_ok hparse
    subst hdata
    split at h
    · simp at h
    next price hval =>
      split at h
      · simp at h
      next a harea =>
        split at h
        · simp at h
        next hdup =>
          simp [ConsumptionRepository.create] at h
          obtain ⟨hr, hdb⟩ := h
          subst hr
          subst hdb
          exact ⟨hparse, hdup, rfl, rfl, rfl, rfl, ⟨price, hval⟩, harea⟩

/-- Inversion of a successful device-level creation. -/
theorem createForDevice_ok_inv
    {db : DB} {deviceId areaId propertyId userId : Nat} {input : CreateConsumptionInput}
    {r : ConsumptionRecord} {db' : DB}
    (h : ConsumptionService.createForDevice db deviceId areaId propertyId userId input =
      (.ok r, db')) :
    ConsumptionService.parseAndValidateCreate input = .ok input ∧
    ConsumptionRepository.findByTargetAndPeriod db (.device deviceId)
      input.period input.referenceDate = none ∧
    db' = { db with consumptions := db.consumptions ++ [r], nextId := db.nextId + 1 } ∧
    r.target = .device deviceId ∧ r.period = input.period ∧
    r.referenceDate = input.referenceDate ∧
    (∃ price, ConsumptionService.validatePropertyAndGetKwhPrice db propertyId userId = .ok price) ∧
    ConsumptionService.validateAreaBelongsToProperty db areaId propertyId = .ok () ∧
    ConsumptionService.validateDeviceBelongsToArea db deviceId areaId = .ok () := by
  unfold ConsumptionService.createForDevice at h
  split at h
  · simp at h
  next data hparse =>
    have hdata := parseCreate_ok hparse
    subst hdata
    split at h
    · simp at h
    next price hval =>
      split at h
      · simp at h
      next a harea =>
        split at h
        · simp at h
        next b hdev =>
          split at h
          · simp at h
          next hdup =>
            simp [ConsumptionRepository.create] at h
            obtain ⟨hr, hdb⟩ := h
            subst hr
            subst hdb
            exact ⟨hparse, hdup, rfl, rfl, rfl, rfl, ⟨price, hval⟩, harea, hdev⟩

/-- C4: for each of the three creation paths (property, area and device
target), re-creating a record for the same (target, period kind,
reference-date) triple fails with Conflict and leaves the state unchanged;
a second creation differing in period kind or reference-date succeeds, as
does one against a different target. -/
theorem C4_period_uniqueness :
    (∀ (db : DB) (propertyId userId : Nat) (input input2 : CreateConsumptionInput)
       (r : ConsumptionRecord) (db' : DB),
       ConsumptionService.createForProperty db propertyId userId input = (.ok r, db') →
       ConsumptionService.parseAndValidateCreate input2 = .ok input2 →
       input2.period = input.period →
       input2.referenceDate = input.referenceDate →
       ConsumptionService.createForProperty db' propertyId userId input2 =
         (.error (.conflict ("Já existe um registro " ++ input2.period.label ++
           " para esta propriedade nesta data")), db')) ∧
    (∀ (db : DB) (propertyId userId : Nat) (input input2 : CreateConsumptionInput)
       (r : ConsumptionRecord) (db' : DB),
       ConsumptionService.createForProperty db propertyId userId input = (.ok r, db') →
       ConsumptionService.parseAndValidateCreate input2 = .ok input2 →
       ConsumptionRepository.findByTargetAndPeriod db (.property propertyId)
         input2.period input2.referenceDate = none →
       (input2.period ≠ input.period ∨ input2.referenceDate ≠ input.referenceDate) →
       ∃ r2 db2, ConsumptionService.createForProperty db' propertyId userId input2 =
         (.ok r2, db2)) ∧
    (∀ (db : DB) (areaId propertyId userId : Nat) (input input2 : CreateConsumptionInput)
       (r : ConsumptionRecord) (db' : DB) (area : Area),
       ConsumptionService.createForProperty db propertyId userId input = (.ok r, db') →
       ConsumptionService.parseAndValidateCreate input2 = .ok input2 →
       db.findArea areaId = some area →
       area.propertyId = propertyId →
       ConsumptionRepository.findByTargetAndPeriod db (.area areaId)
         input2.period input2.referenceDate = none →
       ∃ r2 db2, ConsumptionService.createForArea db' areaId propertyId userId input2 =
         (.ok r2, db2)) ∧
    (∀ (db : DB) (areaId propertyId userId : Nat) (input input2 : CreateConsumptionInput)
       (r : ConsumptionRecord) (db' : DB),
       ConsumptionService.createForArea db areaId propertyId userId input = (.ok r, db') →
       ConsumptionService.parseAndValidateCreate input2 = .ok input2 →
       input2.period = input.period →
       input2.referenceDate = input.referenceDate →
       ConsumptionService.createForArea db' areaId propertyId userId input2 =
         (.error (.conflict ("Já existe um registro " ++ input2.period.label ++
           " para esta área nesta data")), db')) ∧
    (∀ (db : DB) (areaId propertyId userId : Nat) (input input2 : CreateConsumptionInput)
       (r : ConsumptionRecord) (db' : DB),
       ConsumptionService.createForArea db areaId propertyId userId input = (.ok r, db') →
       ConsumptionService.parseAndValidateCreate input2 = .ok input2 →
       ConsumptionRepository.findByTargetAndPeriod db (.area areaId)
         input2.period input2.referenceDate = none →
       (input2.period ≠ input.period ∨ input2.referenceDate ≠ input.referenceDate) →
       ∃ r2 db2, ConsumptionService.createForArea db' areaId propertyId userId input2 =
         (.ok r2, db2)) ∧
    (∀ (db : DB) (deviceId areaId propertyId userId : Nat)
       (input input2 : CreateConsumptionInput) (r : ConsumptionRecord) (db' : DB),
       ConsumptionService.createForDevice db deviceId areaId propertyId userId input =
         (.ok r, db') →
       ConsumptionService.parseAndValidateCreate input2 = .ok input2 →
       input2.period = input.period →
       input2.referenceDate = input.referenceDate →
       ConsumptionService.createForDevice db' deviceId areaId propertyId userId input2 =
         (.error (.conflict ("Já existe um registro " ++ input2.period.label ++
           " para este dispositivo nesta data")), db')) ∧
    (∀ (db : DB) (deviceId areaId propertyId userId : Nat)
       (input input2 : CreateConsumptionInput) (r : ConsumptionRecord) (db' : DB),
       ConsumptionService.createForDevice db deviceId areaId propertyId userId input =
         (.ok r, db') →
       ConsumptionService.parseAndValidateCreate input2 = .ok input2 →
       ConsumptionRepository.findByTargetAndPeriod db (.device deviceId)
         input2.period input2.referenceDate = none →
       (input2.period ≠ input.period ∨ input2.referenceDate ≠ input.referenceDate) →
       ∃ r2 db2, ConsumptionService.createForDevice db' deviceId areaId propertyId userId
         input2 = (.ok r2, db2)) := by
  refine ⟨?_, ?_, ?_, ?_, ?_, ?_, ?_⟩
  · intro db propertyId userId input input2 r db' h1 hv2 hper hdate
    obtain ⟨hval1, hdup, hdb, htgt, hperr, hdater, price, hprice⟩ := createForProperty_ok_inv h1
    subst hdb
    have hsame := validate_same_tables db
      { db with consumptions := db.consumptions ++ [r], nextId := db.nextId + 1 }
      propertyId userId rfl rfl
    have hguard : ConsumptionRepository.findByTargetAndPeriod
        { db with consumptions := db.consumptions ++ [r], nextId := db.nextId + 1 }
        (.property propertyId) input2.period input2.referenceDate = some r := by
      unfold ConsumptionRepository.findByTargetAndPeriod at hdup ⊢
      dsimp only
      rw [hper, hdate]
      rw [find?_append_none _ _ hdup]
      simp [List.find?, htgt, hperr, hdater]
    unfold ConsumptionService.createForProperty
    rw [hv2]
    dsimp only
    rw [hsame, hprice, hguard]
  · intro db propertyId userId input input2 r db' h1 hv2 hguard0 hdiff
    obtain ⟨hval1, hdup, hdb, htgt, hperr, hdater, price, hprice⟩ := createForProperty_ok_inv h1
    subst hdb
    have hsame := validate_same_tables db
      { db with consumptions := db.consumptions ++ [r], nextId := db.nextId + 1 }
      propertyId userId rfl rfl
    have hguard : ConsumptionRepository.findByTargetAndPeriod
        { db with consumptions := db.consumptions ++ [r], nextId := db.nextId + 1 }
        (.property propertyId) input2.period input2.referenceDate = none := by
      unfold ConsumptionRepository.findByTargetAndPeriod at hguard0 ⊢
      dsimp only
      rw [find?_append_none _ _ hguard0]
      rcases hdiff with h | h
      · have hb : (input.period == input2.period) = false := by
          simp only [beq_eq_false_iff_ne]
          exact fun hh => h hh.symm
        simp [List.find?, htgt, hperr, hdater, hb]
      · have hb : (input.referenceDate == input2.referenceDate) = false := by
          simp only [beq_eq_false_iff_ne]
          exact fun hh => h hh.symm
        simp [List.find?, htgt, hperr, hdater, hb]
    unfold ConsumptionService.createForProperty
    rw [hv2]
    dsimp only
    rw [hsame, hprice, hguard]
    exact ⟨_, _, rfl⟩
  · intro db areaId propertyId userId input input2 r db' area h1 hv2 ha hap hguard0
    obtain ⟨hval1, hdup, hdb, htgt, hperr, hdater, price, hprice⟩ := createForProperty_ok_inv h1
    subst hdb
    have hsame := validate_same_tables db
      { db with consumptions := db.consumptions ++ [r], nextId := db.nextId + 1 }
      propertyId userId rfl rfl
    have harea0 : ConsumptionService.validateAreaBelongsToProperty db areaId propertyId = .ok () := by
      unfold ConsumptionService.validateAreaBelongsToProperty
      rw [ha]
      simp [hap]
    have harea := validateArea_same db
      { db with consumptions := db.consumptions ++ [r], nextId := db.nextId + 1 }
      areaId propertyId rfl
    have hguard : ConsumptionRepository.findByTargetAndPeriod
        { db with consumptions := db.consumptions ++ [r], nextId := db.nextId + 1 }
        (.area areaId) input2.period input2.referenceDate = none := by
      unfold ConsumptionRepository.findByTargetAndPeriod at hguard0 ⊢
      dsimp only
      rw [find?_append_none _ _ hguard0]
      have hb : (Target.property propertyId == Target.area areaId) = false := by
        simp only [beq_eq_false_iff_ne]
        exact fun hh => Target.noConfusion hh
      simp [List.find?, htgt, hb]
    unfold ConsumptionService.createForArea
    rw [hv2]
    dsimp only
    rw [hsame, hprice, harea, harea0, hguard]
    exact ⟨_, _, rfl⟩
  · intro db areaId propertyId userId input input2 r db' h1 hv2 hper hdate
    obtain ⟨hval1, hdup, hdb, htgt, hperr, hdater, ⟨price, hprice⟩, hareaOk⟩ :=
      createForArea_ok_inv h1
    subst hdb
    have hsame := validate_same_tables db
      { db with consumptions := db.consumptions ++ [r], nextId := db.nextId + 1 }
      propertyId userId rfl rfl
    have hareaSame := validateArea_same db
      { db with consumptions := db.consumptions ++ [r], nextId := db.nextId + 1 }
      areaId propertyId rfl
    have hguard : ConsumptionRepository.findByTargetAndPeriod
        { db with consumptions := db.consumptions ++ [r], nextId := db.nextId + 1 }
        (.area areaId) input2.period input2.referenceDate = some r := by
      unfold ConsumptionRepository.findByTargetAndPeriod at hdup ⊢
      dsimp only
      rw [hper, hdate]
      rw [find?_append_none _ _ hdup]
      simp [List.find?, htgt, hperr, hdater]
    unfold ConsumptionService.createForArea
    rw [hv2]
    dsimp only
    rw [hsame, hprice]
    dsimp only
    rw [hareaSame, hareaOk]
    dsimp only
    rw [hguard]
  · intro db areaId propertyId userId input input2 r db' h1 hv2 hguard0 hdiff
    obtain ⟨hval1, hdup, hdb, htgt, hperr, hdater, ⟨price, hprice⟩, hareaOk⟩ :=
      createForArea_ok_inv h1
    subst hdb
    have hsame := validate_same_tables db
      { db with consumptions := db.consumptions ++ [r], nextId := db.nextId + 1 }
      propertyId userId rfl rfl
    have hareaSame := validateArea_same db
      { db with consumptions := db.consumptions ++ [r], nextId := db.nextId + 1 }
      areaId propertyId rfl
    have hguard : ConsumptionRepository.findByTargetAndPeriod
        { db with consumptions := db.consumptions ++ [r], nextId := db.nextId + 1 }
        (.area areaId) input2.period input2.referenceDate = none := by
      unfold ConsumptionRepository.findByTargetAndPeriod at hguard0 ⊢
      dsimp only
      rw [find?_append_none _ _ hguard0]
      rcases hdiff with h | h
      · have hb : (input.period == input2.period) = false := by
          simp only [beq_eq_false_iff_ne]
          exact fun hh => h hh.symm
        simp [List.find?, htgt, hperr, hdater, hb]
      · have hb : (input.referenceDate == input2.referenceDate) = false := by
          simp only [beq_eq_false_iff_ne]
          exact fun hh => h hh.symm
        simp [List.find?, htgt, hperr, hdater, hb]
    unfold ConsumptionService.createForArea
    rw [hv2]
    dsimp only
    rw [hsame, hprice]
    dsimp only
    rw [hareaSame, hareaOk]
    dsimp only
    rw [hguard]
    exact ⟨_, _, rfl⟩
  · intro db deviceId areaId propertyId userId input input2 r db' h1 hv2 hper hdate
    obtain ⟨hval1, hdup, hdb, htgt, hperr, hdater, ⟨price, hprice⟩, hareaOk, hdevOk⟩ :=
      createForDevice_ok_inv h1
    subst hdb
    have hsame := validate_same_tables db
      { db with consumptions := db.consumptions ++ [r], nextId := db.nextId + 1 }
      propertyId userId rfl rfl
    have hareaSame := validateArea_same db
      { db with consumptions := db.consumptions ++ [r], nextId := db.nextId + 1 }
      areaId propertyId rfl
    have hdevSame := validateDevice_same db
      { db with consumptions := db.consumptions ++ [r], nextId := db.nextId + 1 }
      deviceId areaId rfl
    have hguard : ConsumptionRepository.findByTargetAndPeriod
        { db with consumptions := db.consumptions ++ [r], nextId := db.nextId + 1 }
        (.device deviceId) input2.period input2.referenceDate = some r := by
      unfold ConsumptionRepository.findByTargetAndPeriod at hdup ⊢
      dsimp only
      rw [hper, hdate]
      rw [find?_append_none _ _ hdup]
      simp [List.find?, htgt, hperr, hdater]
    unfold ConsumptionService.createForDevice
    rw [hv2]
    dsimp only
    rw [hsame, hprice]
    dsimp only
    rw [hareaSame, hareaOk]
    dsimp only
    rw [hdevSame, hdevOk]
    dsimp only
    rw [hguard]
  · intro db deviceId areaId propertyId userId input input2 r db' h1 hv2 hguard0 hdiff
    obtain ⟨hval1, hdup, hdb, htgt, hperr, hdater, ⟨price, hprice⟩, hareaOk, hdevOk⟩ :=
      createForDevice_ok_inv h1
    subst hdb
    have hsame := validate_same_tables db
      { db with consumptions := db.consumptions ++ [r], nextId := db.nextId + 1 }
      propertyId userId rfl rfl
    have hareaSame := validateArea_same db
      { db with consumptions := db.consumptions ++ [r], nextId := db.nextId + 1 }
      areaId propertyId rfl
    have hdevSame := validateDevice_same db
      { db with consumptions := db.consumptions ++ [r], nextId := db.nextId + 1 }
      deviceId areaId rfl
    have hguard : ConsumptionRepository.findByTargetAndPeriod
        { db with consumptions := db.consumptions ++ [r], nextId := db.nextId + 1 }
        (.device deviceId) input2.period input2.referenceDate = none := by
      unfold ConsumptionRepository.findByTargetAndPeriod at hguard0 ⊢
      dsimp only
      rw [find?_append_none _ _ hguard0]
      rcases hdiff with h | h
      · have hb : (input.period == input2.period) = false := by
          simp only [beq_eq_false_iff_ne]
          exact fun hh => h hh.symm
        simp [List.find?, htgt, hperr, hdater, hb]
      · have hb : (input.referenceDate == input2.referenceDate) = false := by
          simp only [beq_eq_false_iff_ne]
          exact fun hh => h hh.symm
        simp [List.find?, htgt, hperr, hdater, hb]
    unfold ConsumptionService.createForDevice
    rw [hv2]
    dsimp only
    rw [hsame, hprice]
    dsimp only
    rw [hareaSame, hareaOk]
    dsimp only
    rw [hdevSame, hdevOk]
    dsimp only
    rw [hguard]
    exact ⟨_, _, rfl⟩

/-- Witness for C4: under each of the three targets, create a daily
record, watch the exact duplicate fail with Conflict while a monthly
record for the same date succeeds; an area-target record also coexists
with the property-target one. -/
theorem C4_period_uniqueness_witness :
    (ConsumptionService.createForProperty dbC4 10 1 fixInput = (.ok recC4, dbC4') ∧
     ConsumptionService.createForProperty dbC4' 10 1 fixInput =
       (.error (.conflict ("Já existe um registro " ++ fixInput.period.label ++
         " para esta propriedade nesta data")), dbC4')) ∧
    (∃ r2 db2, ConsumptionService.createForProperty dbC4' 10 1 inC4b = (.ok r2, db2)) ∧
    (∃ r2 db2, ConsumptionService.createForArea dbC4' 40 10 1 fixInput = (.ok r2, db2)) ∧
    (ConsumptionService.createForArea dbC4 40 10 1 fixInput = (.ok recC4a, dbC4a) ∧
     ConsumptionService.createForArea dbC4a 40 10 1 fixInput =
       (.error (.conflict ("Já existe um registro " ++ fixInput.period.label ++
         " para esta área nesta data")), dbC4a)) ∧
    (∃ r2 db2, ConsumptionService.createForArea dbC4a 40 10 1 inC4b = (.ok r2, db2)) ∧
    (ConsumptionService.createForDevice dbC4 45 40 10 1 fixInput = (.ok recC4d, dbC4d) ∧
     ConsumptionService.createForDevice dbC4d 45 40 10 1 fixInput =
       (.error (.conflict ("Já existe um registro " ++ fixInput.period.label ++
         " para este dispositivo nesta data")), dbC4d)) ∧
    (∃ r2 db2, ConsumptionService.createForDevice dbC4d 45 40 10 1 inC4b =
      (.ok r2, db2)) := by
  refine ⟨⟨by rfl, ?_⟩, ?_, ?_, ⟨by rfl, ?_⟩, ?_, ⟨by rfl, ?_⟩, ?_⟩
  · exact C4_period_uniqueness.1 dbC4 10 1 fixInput fixInput recC4 dbC4'
      (by rfl) (by rfl) rfl rfl
  · exact C4_period_uniqueness.2.1 dbC4 10 1 fixInput inC4b recC4 dbC4'
      (by rfl) (by rfl) (by rfl) (Or.inl (by decide))
  · exact C4_period_uniqueness.2.2.1 dbC4 40 10 1 fixInput fixInput recC4 dbC4' areaC4
      (by rfl) (by rfl) (by rfl) rfl (by rfl)
  · exact C4_period_uniqueness.2.2.2.1 dbC4 40 10 1 fixInput fixInput recC4a dbC4a
      (by rfl) (by rfl) rfl rfl
  · exact C4_period_uniqueness.2.2.2.2.1 dbC4 40 10 1 fixInput inC4b recC4a dbC4a
      (by rfl) (by rfl) (by rfl) (Or.inl (by decide))
  · exact C4_period_uniqueness.2.2.2.2.2.1 dbC4 45 40 10 1 fixInput fixInput recC4d dbC4d
      (by rfl) (by rfl) rfl rfl
  · exact C4_period_uniqueness.2.2.2.2.2.2 dbC4 45 40 10 1 fixInput inC4b recC4d dbC4d
      (by rfl) (by rfl) (by rfl) (Or.inl (by decide))

/-- C5: every device-level operation checks its ownership chain in strict
top-down order and short-circuits: for the consumption creation and
listing on a device, a failed property check ends the operation (for any
contents of the area and device tables) and a failed area check ends it
before the device is consulted; `DeviceService.validateAreaOwnership`
fails the same way in the same order, every `DeviceService` operation
propagates its first failure unchanged (create/findAll/findById directly,
update/delete through findById, which also rejects a missing or
mismatched device); every failure returns the state unchanged. -/
theorem C5_chain_order :
    (∀ (db : DB) (deviceId areaId propertyId userId : Nat) (input : CreateConsumptionInput),
       ConsumptionService.parseAndValidateCreate input = .ok input →
       db.findProperty propertyId = none →
       ConsumptionService.createForDevice db deviceId areaId propertyId userId input =
         (.error (.notFound "Propriedade não encontrada"), db)) ∧
    (∀ (db : DB) (deviceId areaId propertyId userId : Nat) (input : CreateConsumptionInput)
       (property : Property),
       ConsumptionService.parseAndValidateCreate input = .ok input →
       db.findProperty propertyId = some property →
       property.userId ≠ userId →
       ConsumptionService.createForDevice db deviceId areaId propertyId userId input =
         (.error (.forbidden "Acesso negado"), db)) ∧
    (∀ (db : DB) (deviceId areaId propertyId userId : Nat) (input : CreateConsumptionInput)
       (property : Property) (d : Distributor),
       ConsumptionService.parseAndValidateCreate input = .ok input →
       db.findProperty propertyId = some property →
       property.userId = userId →
       db.findDistributor property.distributorId = some d →
       db.findArea areaId = none →
       ConsumptionService.createForDevice db deviceId areaId propertyId userId input =
         (.error (.notFound "Área não encontrada"), db)) ∧
    (∀ (db : DB) (deviceId areaId propertyId userId : Nat) (input : CreateConsumptionInput)
       (property : Property) (d : Distributor) (area : Area),
       ConsumptionService.parseAndValidateCreate input = .ok input →
       db.findProperty propertyId = some property →
       property.userId = userId →
       db.findDistributor property.distributorId = some d →
       db.findArea areaId = some area →
       area.propertyId ≠ propertyId →
       ConsumptionService.createForDevice db deviceId areaId propertyId userId input =
         (.error (.forbidden "Área não pertence a esta propriedade"), db)) ∧
    (∀ (db : DB) (deviceId areaId propertyId userId : Nat) (input : CreateConsumptionInput)
       (property : Property) (d : Distributor) (area : Area),
       ConsumptionService.parseAndValidateCreate input = .ok input →
       db.findProperty propertyId = some property →
       property.userId = userId →
       db.findDistributor property.distributorId = some d →
       db.findArea areaId = some area →
       area.propertyId = propertyId →
       db.findDevice deviceId = none →
       ConsumptionService.createForDevice db deviceId areaId propertyId userId input =
         (.error (.notFound "Dispositivo não encontrado"), db)) ∧
    (∀ (db : DB) (deviceId areaId propertyId userId : Nat) (input : CreateConsumptionInput)
       (property : Property) (d : Distributor) (area : Area) (device : Device),
       ConsumptionService.parseAndValidateCreate input = .ok input →
       db.findProperty propertyId = some property →
       property.userId = userId →
       db.findDistributor property.distributorId = some d →
       db.findArea areaId = some area →
       area.propertyId = propertyId →
       db.findDevice deviceId = some device →
       device.areaId ≠ areaId →
       ConsumptionService.createForDevice db deviceId areaId propertyId userId input =
         (.error (.forbidden "Dispositivo não pertence a esta área"), db)) ∧
    (∀ (db : DB) (deviceId areaId propertyId userId : Nat) (period : Option Period),
       db.findProperty propertyId = none →
       ConsumptionService.findAllForDevice db deviceId areaId propertyId userId period =
         .error (.notFound "Propriedade não encontrada")) ∧
    (∀ (db : DB) (deviceId areaId propertyId userId : Nat) (period : Option Period)
       (property : Property),
       db.findProperty propertyId = some property →
       property.userId ≠ userId →
       ConsumptionService.findAllForDevice db deviceId areaId propertyId userId period =
         .error (.forbidden "Acesso negado")) ∧
    (∀ (db : DB) (deviceId areaId propertyId userId : Nat) (period : Option Period)
       (property : Property) (d : Distributor),
       db.findProperty propertyId = some property →
       property.userId = userId →
       db.findDistributor property.distributorId = some d →
       db.findArea areaId = none →
       ConsumptionService.findAllForDevice db deviceId areaId propertyId userId period =
         .error (.notFound "Área não encontrada")) ∧
    (∀ (db : DB) (deviceId areaId propertyId userId : Nat) (period : Option Period)
       (property : Property) (d : Distributor) (area : Area),
       db.findProperty propertyId = some property →
       property.userId = userId →
       db.findDistributor property.distributorId = some d →
       db.findArea areaId = some area →
       area.propertyId ≠ propertyId →
       ConsumptionService.findAllForDevice db deviceId areaId propertyId userId period =
         .error (.forbidden "Área não pertence a esta propriedade")) ∧
    (∀ (db : DB) (deviceId areaId propertyId userId : Nat) (period : Option Period)
       (property : Property) (d : Distributor) (area : Area),
       db.findProperty propertyId = some property →
       property.userId = userId →
       db.findDistributor property.distributorId = some d →
       db.findArea areaId = some area →
       area.propertyId = propertyId →
       db.findDevice deviceId = none →
       ConsumptionService.findAllForDevice db deviceId areaId propertyId userId period =
         .error (.notFound "Dispositivo não encontrado")) ∧
    (∀ (db : DB) (deviceId areaId propertyId userId : Nat) (period : Option Period)
       (property : Property) (d : Distributor) (area : Area) (device : Device),
       db.findProperty propertyId = some property →
       property.userId = userId →
       db.findDistributor property.distributorId = some d →
       db.findArea areaId = some area →
       area.propertyId = propertyId →
       db.findDevice deviceId = some device →
       device.areaId ≠ areaId →
       ConsumptionService.findAllForDevice db deviceId areaId propertyId userId period =
         .error (.forbidden "Dispositivo não pertence a esta área")) ∧
    (∀ (db : DB) (areaId propertyId userId : Nat),
       db.findProperty propertyId = none →
       DeviceService.validateAreaOwnership db areaId propertyId userId =
         .error (.notFound "Propriedade não encontrada")) ∧
    (∀ (db : DB) (areaId propertyId userId : Nat) (property : Property),
       db.findProperty propertyId = some property →
       property.userId ≠ userId →
       DeviceService.validateAreaOwnership db areaId propertyId userId =
         .error (.forbidden "Acesso negado")) ∧
    (∀ (db : DB) (areaId propertyId userId : Nat) (property : Property),
       db.findProperty propertyId = some property →
       property.userId = userId →
       db.findArea areaId = none →
       DeviceService.validateAreaOwnership db areaId propertyId userId =
         .error (.notFound "Área não encontrada")) ∧
    (∀ (db : DB) (areaId propertyId userId : Nat) (property : Property) (area : Area),
       db.findProperty propertyId = some property →
       property.userId = userId →
       db.findArea areaId = some area →
       area.propertyId ≠ propertyId →
       DeviceService.validateAreaOwnership db areaId propertyId userId =
         .error (.forbidden "Área não pertence a esta propriedade")) ∧
    (∀ (db : DB) (areaId propertyId userId : Nat) (input : CreateDeviceInput)
       (e : AppError),
       parseCreateDevice input = .ok input →
       DeviceService.validateAreaOwnership db areaId propertyId userId = .error e →
       DeviceService.create db areaId propertyId userId input = (.error e, db)) ∧
    (∀ (db : DB) (areaId propertyId userId : Nat) (e : AppError),
       DeviceService.validateAreaOwnership db areaId propertyId userId = .error e →
       DeviceService.findAll db areaId propertyId userId = .error e) ∧
    (∀ (db : DB) (id areaId propertyId userId : Nat) (e : AppError),
       DeviceService.validateAreaOwnership db areaId propertyId userId = .error e →
       DeviceService.findById db id areaId propertyId userId = .error e) ∧
    (∀ (db : DB) (id areaId propertyId userId : Nat),
       DeviceService.validateAreaOwnership db areaId propertyId userId = .ok () →
       db.findDevice id = none →
       DeviceService.findById db id areaId propertyId userId =
         .error (.notFound "Dispositivo não encontrado")) ∧
    (∀ (db : DB) (id areaId propertyId userId : Nat) (device : Device),
       DeviceService.validateAreaOwnership db areaId propertyId userId = .ok () →
       db.findDevice id = some device →
       device.areaId ≠ areaId →
       DeviceService.findById db id areaId propertyId userId =
         .error (.forbidden "Dispositivo não pertence a esta área")) ∧
    (∀ (db : DB) (id areaId propertyId userId : Nat) (input : UpdateDeviceInput)
       (e : AppError),
       DeviceService.findById db id areaId propertyId userId = .error e →
       DeviceService.update db id areaId propertyId userId input = (.error e, db)) ∧
    (∀ (db : DB) (id areaId propertyId userId : Nat) (e : AppError),
       DeviceService.findById db id areaId propertyId userId = .error e →
       DeviceService.delete db id areaId propertyId userId = (.error e, db)) := by
  refine ⟨?_, ?_, ?_, ?_, ?_, ?_, ?_, ?_, ?_, ?_, ?_, ?_, ?_, ?_, ?_, ?_, ?_, ?_, ?_, ?_,
    ?_, ?_, ?_⟩
  · intro db deviceId areaId propertyId userId input hv hp
    have hval : ConsumptionService.validatePropertyAndGetKwhPrice db propertyId userId =
        .error (.notFound "Propriedade não encontrada") := by
      unfold ConsumptionService.validatePropertyAndGetKwhPrice
      rw [hp]
    unfold ConsumptionService.createForDevice
    rw [hv]
    dsimp only
    rw [hval]
  · intro db deviceId areaId propertyId userId input property hv hp hu
    have hval : ConsumptionService.validatePropertyAndGetKwhPrice db propertyId userId =
        .error (.forbidden "Acesso negado") := by
      unfold ConsumptionService.validatePropertyAndGetKwhPrice
      rw [hp]
      simp [hu]
    unfold ConsumptionService.createForDevice
    rw [hv]
    dsimp only
    rw [hval]
  · intro db deviceId areaId propertyId userId input property d hv hp hu hd ha
    have hval : ConsumptionService.validatePropertyAndGetKwhPrice db propertyId userId =
        .ok d.kwhPrice := by
      unfold ConsumptionService.validatePropertyAndGetKwhPrice
      rw [hp]
      simp [hu, hd]
    have hvalArea : ConsumptionService.validateAreaBelongsToProperty db areaId propertyId =
        .error (.notFound "Área não encontrada") := by
      unfold ConsumptionService.validateAreaBelongsToProperty
      rw [ha]
    unfold ConsumptionService.createForDevice
    rw [hv]
    dsimp only
    rw [hval]
    dsimp only
    rw [hvalArea]
  · intro db deviceId areaId propertyId userId input property d area hv hp hu hd ha hmis
    have hval : ConsumptionService.validatePropertyAndGetKwhPrice db propertyId userId =
        .ok d.kwhPrice := by
      unfold ConsumptionService.validatePropertyAndGetKwhPrice
      rw [hp]
      simp [hu, hd]
    have hvalArea : ConsumptionService.validateAreaBelongsToProperty db areaId propertyId =
        .error (.forbidden "Área não pertence a esta propriedade") := by
      unfold ConsumptionService.validateAreaBelongsToProperty
      rw [ha]
      simp [hmis]
    unfold ConsumptionService.createForDevice
    rw [hv]
    dsimp only
    rw [hval]
    dsimp only
    rw [hvalArea]
  · intro db deviceId areaId propertyId userId input property d area hv hp hu hd ha hap hdev
    have hval : ConsumptionService.validatePropertyAndGetKwhPrice db propertyId userId =
        .ok d.kwhPrice := by
      unfold ConsumptionService.validatePropertyAndGetKwhPrice
      rw [hp]
      simp [hu, hd]
    have hvalArea : ConsumptionService.validateAreaBelongsToProperty db areaId propertyId =
        .ok () := by
      unfold ConsumptionService.validateAreaBelongsToProperty
      rw [ha]
      simp [hap]
    have hvalDev : ConsumptionService.validateDeviceBelongsToArea db deviceId areaId =
        .error (.notFound "Dispositivo não encontrado") := by
      unfold ConsumptionService.validateDeviceBelongsToArea
      rw [hdev]
    unfold ConsumptionService.createForDevice
    rw [hv]
    dsimp only
    rw [hval]
    dsimp only
    rw [hvalArea]
    dsimp only
    rw [hvalDev]
  · intro db deviceId areaId propertyId userId input property d area device hv hp hu hd ha hap hdev hmis
    have hval : ConsumptionService.validatePropertyAndGetKwhPrice db propertyId userId =
        .ok d.kwhPrice := by
      unfold ConsumptionService.validatePropertyAndGetKwhPrice
      rw [hp]
      simp [hu, hd]
    have hvalArea : ConsumptionService.validateAreaBelongsToProperty db areaId propertyId =
        .ok () := by
      unfold ConsumptionService.validateAreaBelongsToProperty
      rw [ha]
      simp [hap]
    have hvalDev : ConsumptionService.validateDeviceBelongsToArea db deviceId areaId =
        .error (.forbidden "Dispositivo não pertence a esta área") := by
      unfold ConsumptionService.validateDeviceBelongsToArea
      rw [hdev]
      simp [hmis]
    unfold ConsumptionService.createForDevice
    rw [hv]
    dsimp only
    rw [hval]
    dsimp only
    rw [hvalArea]
    dsimp only
    rw [hvalDev]
  · intro db deviceId areaId propertyId userId period hp
    have hval : ConsumptionService.validatePropertyAndGetKwhPrice db propertyId userId =
        .error (.notFound "Propriedade não encontrada") := by
      unfold ConsumptionService.validatePropertyAndGetKwhPrice
      rw [hp]
    unfold ConsumptionService.findAllForDevice
    rw [hval]
  · intro db deviceId areaId propertyId userId period property hp hu
    have hval : ConsumptionService.validatePropertyAndGetKwhPrice db propertyId userId =
        .error (.forbidden "Acesso negado") := by
      unfold ConsumptionService.validatePropertyAndGetKwhPrice
      rw [hp]
      simp [hu]
    unfold ConsumptionService.findAllForDevice
    rw [hval]
  · intro db deviceId areaId propertyId userId period property d hp hu hd ha
    have hval : ConsumptionService.validatePropertyAndGetKwhPrice db propertyId userId =
        .ok d.kwhPrice := by
      unfold ConsumptionService.validatePropertyAndGetKwhPrice
      rw [hp]
      simp [hu, hd]
    have hvalArea : ConsumptionService.validateAreaBelongsToProperty db areaId propertyId =
        .error (.notFound "Área não encontrada") := by
      unfold ConsumptionService.validateAreaBelongsToProperty
      rw [ha]
    unfold ConsumptionService.findAllForDevice
    rw [hval]
    dsimp only
    rw [hvalArea]
  · intro db deviceId areaId propertyId userId period property d area hp hu hd ha hmis
    have hval : ConsumptionService.validatePropertyAndGetKwhPrice db propertyId userId =
        .ok d.kwhPrice := by
      unfold ConsumptionService.validatePropertyAndGetKwhPrice
      rw [hp]
      simp [hu, hd]
    have hvalArea : ConsumptionService.validateAreaBelongsToProperty db areaId propertyId =
        .error (.forbidden "Área não pertence a esta propriedade") := by
      unfold ConsumptionService.validateAreaBelongsToProperty
      rw [ha]
      simp [hmis]
    unfold ConsumptionService.findAllForDevice
    rw [hval]
    dsimp only
    rw [hvalArea]
  · intro db deviceId areaId propertyId userId period property d area hp hu hd ha hap hdev
    have hval : ConsumptionService.validatePropertyAndGetKwhPrice db propertyId userId =
        .ok d.kwhPrice := by
      unfold ConsumptionService.validatePropertyAndGetKwhPrice
      rw [hp]
      simp [hu, hd]
    have hvalArea : ConsumptionService.validateAreaBelongsToProperty db areaId propertyId =
        .ok () := by
      unfold ConsumptionService.validateAreaBelongsToProperty
      rw [ha]
      simp [hap]
    have hvalDev : ConsumptionService.validateDeviceBelongsToArea db deviceId areaId =
        .error (.notFound "Dispositivo não encontrado") := by
      unfold ConsumptionService.validateDeviceBelongsToArea
      rw [hdev]
    unfold ConsumptionService.findAllForDevice
    rw [hval]
    dsimp only
    rw [hvalArea]
    dsimp only
    rw [hvalDev]
  · intro db deviceId areaId propertyId userId period property d area device hp hu hd ha hap hdev hmis
    have hval : ConsumptionService.validatePropertyAndGetKwhPrice db propertyId userId =
        .ok d.kwhPrice := by
      unfold ConsumptionService.validatePropertyAndGetKwhPrice
      rw [hp]
      simp [hu, hd]
    have hvalArea : ConsumptionService.validateAreaBelongsToProperty db areaId propertyId =
        .ok () := by
      unfold ConsumptionService.validateAreaBelongsToProperty
      rw [ha]
      simp [hap]
    have hvalDev : ConsumptionService.validateDeviceBelongsToArea db deviceId areaId =
        .error (.forbidden "Dispositivo não pertence a esta área") := by
      unfold ConsumptionService.validateDeviceBelongsToArea
      rw [hdev]
      simp [hmis]
    unfold ConsumptionService.findAllForDevice
    rw [hval]
    dsimp only
    rw [hvalArea]
    dsimp only
    rw [hvalDev]
  · intro db areaId propertyId userId hp
    unfold DeviceService.validateAreaOwnership
    rw [hp]
  · intro db areaId propertyId userId property hp hu
    unfold DeviceService.validateAreaOwnership
    simp [hp, hu]
  · intro db areaId propertyId userId property hp hu ha
    unfold DeviceService.validateAreaOwnership
    simp [hp, hu, ha]
  · intro db areaId propertyId userId property area hp hu ha hmis
    unfold DeviceService.validateAreaOwnership
    simp [hp, hu, ha, hmis]
  · intro db areaId propertyId userId input e hv hval
    unfold DeviceService.create
    rw [hv]
    dsimp only
    rw [hval]
  · intro db areaId propertyId userId e hval
    unfold DeviceService.findAll
    rw [hval]
  · intro db id areaId propertyId userId e hval
    unfold DeviceService.findById
    rw [hval]
  · intro db id areaId propertyId userId hval hdev
    unfold DeviceService.findById
    rw [hval]
    dsimp only
    rw [hdev]
  · intro db id areaId propertyId userId device hval hdev hmis
    unfold DeviceService.findById
    rw [hval]
    dsimp only
    rw [hdev]
    simp [hmis]
  · intro db id areaId propertyId userId input e hf
    unfold DeviceService.update
    rw [hf]
  · intro db id areaId propertyId userId e hf
    unfold DeviceService.delete
    rw [hf]

/-- Witness for C5 on the C2 fixture state: each link of the chain failing
in turn for the device-level creation, the device-level listing, the
DeviceService validator and every DeviceService operation, always leaving
the state untouched. -/
theorem C5_chain_order_witness :
    (ConsumptionService.createForDevice dbC2 30 20 99 1 fixInput =
      (.error (.notFound "Propriedade não encontrada"), dbC2)) ∧
    (ConsumptionService.createForDevice dbC2 30 20 10 2 fixInput =
      (.error (.forbidden "Acesso negado"), dbC2)) ∧
    (ConsumptionService.createForDevice dbC2 30 99 10 1 fixInput =
      (.error (.notFound "Área não encontrada"), dbC2)) ∧
    (ConsumptionService.createForDevice dbC2 30 20 11 1 fixInput =
      (.error (.forbidden "Área não pertence a esta propriedade"), dbC2)) ∧
    (ConsumptionService.createForDevice dbC2 99 20 10 1 fixInput =
      (.error (.notFound "Dispositivo não encontrado"), dbC2)) ∧
    (ConsumptionService.createForDevice dbC2 30 21 10 1 fixInput =
      (.error (.forbidden "Dispositivo não pertence a esta área"), dbC2)) ∧
    (ConsumptionService.findAllForDevice dbC2 30 20 99 1 none =
      .error (.notFound "Propriedade não encontrada")) ∧
    (ConsumptionService.findAllForDevice dbC2 30 20 10 2 none =
      .error (.forbidden "Acesso negado")) ∧
    (ConsumptionService.findAllForDevice dbC2 30 99 10 1 none =
      .error (.notFound "Área não encontrada")) ∧
    (ConsumptionService.findAllForDevice dbC2 30 20 11 1 none =
      .error (.forbidden "Área não pertence a esta propriedade")) ∧
    (ConsumptionService.findAllForDevice dbC2 99 20 10 1 none =
      .error (.notFound "Dispositivo não encontrado")) ∧
    (ConsumptionService.findAllForDevice dbC2 30 21 10 1 none =
      .error (.forbidden "Dispositivo não pertence a esta área")) ∧
    (DeviceService.validateAreaOwnership dbC2 20 99 1 =
      .error (.notFound "Propriedade não encontrada")) ∧
    (DeviceService.validateAreaOwnership dbC2 20 10 2 =
      .error (.forbidden "Acesso negado")) ∧
    (DeviceService.validateAreaOwnership dbC2 99 10 1 =
      .error (.notFound "Área não encontrada")) ∧
    (DeviceService.validateAreaOwnership dbC2 20 11 1 =
      .error (.forbidden "Área não pertence a esta propriedade")) ∧
    (DeviceService.create dbC2 20 99 1 devC5in =
      (.error (.notFound "Propriedade não encontrada"), dbC2)) ∧
    (DeviceService.findAll dbC2 20 99 1 =
      .error (.notFound "Propriedade não encontrada")) ∧
    (DeviceService.findById dbC2 30 20 99 1 =
      .error (.notFound "Propriedade não encontrada")) ∧
    (DeviceService.findById dbC2 99 20 10 1 =
      .error (.notFound "Dispositivo não encontrado")) ∧
    (DeviceService.findById dbC2 30 21 10 1 =
      .error (.forbidden "Dispositivo não pertence a esta área")) ∧
    (DeviceService.update dbC2 99 20 10 1 updC5in =
      (.error (.notFound "Dispositivo não encontrado"), dbC2)) ∧
    (DeviceService.delete dbC2 99 20 10 1 =
      (.error (.notFound "Dispositivo não encontrado"), dbC2)) := by
  obtain ⟨a1, a2, a3, a4, a5, a6, f1, f2, f3, f4, f5, f6, b1, b2, b3, b4, c1, c2, c3,
    d1, d2, e1, e2⟩ := C5_chain_order
  refine ⟨?_, ?_, ?_, ?_, ?_, ?_, ?_, ?_, ?_, ?_, ?_, ?_, ?_, ?_, ?_, ?_, ?_, ?_, ?_,
    ?_, ?_, ?_, ?_⟩
  · exact a1 dbC2 30 20 99 1 fixInput (by rfl) (by rfl)
  · exact a2 dbC2 30 20 10 2 fixInput fixProperty (by rfl) rfl (by decide)
  · exact a3 dbC2 30 99 10 1 fixInput fixProperty fixDistributor
      (by rfl) rfl rfl (by rfl) (by rfl)
  · exact a4 dbC2 30 20 11 1 fixInput propC2B fixDistributor areaC2
      (by rfl) (by rfl) rfl (by rfl) (by rfl) (by decide)
  · exact a5 dbC2 99 20 10 1 fixInput fixProperty fixDistributor areaC2
      (by rfl) (by rfl) rfl (by rfl) (by rfl) rfl (by rfl)
  · exact a6 dbC2 30 21 10 1 fixInput fixProperty fixDistributor areaC2b deviceC2
      (by rfl) (by rfl) rfl (by rfl) (by rfl) rfl (by rfl) (by decide)
  · exact f1 dbC2 30 20 99 1 none (by rfl)
  · exact f2 dbC2 30 20 10 2 none fixProperty rfl (by decide)
  · exact f3 dbC2 30 99 10 1 none fixProperty fixDistributor rfl rfl (by rfl) (by rfl)
  · exact f4 dbC2 30 20 11 1 none propC2B fixDistributor areaC2
      (by rfl) rfl (by rfl) (by rfl) (by decide)
  · exact f5 dbC2 99 20 10 1 none fixProperty fixDistributor areaC2
      (by rfl) rfl (by rfl) (by rfl) rfl (by rfl)
  · exact f6 dbC2 30 21 10 1 none fixProperty fixDistributor areaC2b deviceC2
      (by rfl) rfl (by rfl) (by rfl) rfl (by rfl) (by decide)
  · exact b1 dbC2 20 99 1 (by rfl)
  · exact b2 dbC2 20 10 2 fixProperty rfl (by decide)
  · exact b3 dbC2 99 10 1 fixProperty rfl rfl (by rfl)
  · exact b4 dbC2 20 11 1 propC2B areaC2 rfl rfl rfl (by decide)
  · exact c1 dbC2 20 99 1 devC5in (.notFound "Propriedade não encontrada")
      (by rfl) (by rfl)
  · exact c2 dbC2 20 99 1 (.notFound "Propriedade não encontrada") (by rfl)
  · exact c3 dbC2 30 20 99 1 (.notFound "Propriedade não encontrada") (by rfl)
  · exact d1 dbC2 99 20 10 1 (by rfl) (by rfl)
  · exact d2 dbC2 30 21 10 1 deviceC2 (by rfl) rfl (by decide)
  · exact e1 dbC2 99 20 10 1 updC5in (.notFound "Dispositivo não encontrado") (by rfl)
  · exact e2 dbC2 99 20 10 1 (.notFound "Dispositivo não encontrado") (by rfl)

/-- C6: deleting a distributor that is still referenced by at least one
property fails with Conflict before any deletion is attempted and leaves
the state unchanged; an unreferenced distributor is deleted. -/
theorem C6_distributor_delete_guard :
    (∀ (db : DB) (id userId : Nat) (d : Distributor),
       db.findDistributor id = some d → d.userId = userId →
       DistributorRepository.hasProperties db id = true →
       DistributorService.delete db id userId =
         (.error (.conflict "Não é possível excluir uma distribuidora com propriedades vinculadas. Desvincule as propriedades primeiro."), db)) ∧
    (∀ (db : DB) (id userId : Nat) (d : Distributor),
       db.findDistributor id = some d → d.userId = userId →
       DistributorRepository.hasProperties db id = false →
       DistributorService.delete db id userId =
         (.ok (), { db with distributors := db.distributors.filter (fun x => x.id ≠ id) })) := by
  constructor <;>
    · intro db id userId d hd hu hprops
      unfold DistributorService.delete DistributorService.findById
      simp [hd, hu, hprops, DistributorRepository.delete]

/-- Witness for C6: distributor 100 with a linked property cannot be
deleted; without linked properties the deletion goes through. -/
theorem C6_distributor_delete_guard_witness :
    (dbC6.findDistributor 100 = some fixDistributor ∧
     DistributorRepository.hasProperties dbC6 100 = true ∧
     DistributorService.delete dbC6 100 1 =
       (.error (.conflict "Não é possível excluir uma distribuidora com propriedades vinculadas. Desvincule as propriedades primeiro."), dbC6)) ∧
    (DistributorRepository.hasProperties dbC6b 100 = false ∧
     DistributorService.delete dbC6b 100 1 =
       (.ok (), { dbC6b with distributors := dbC6b.distributors.filter (fun x => x.id ≠ 100) })) := by
  refine ⟨⟨rfl, rfl, ?_⟩, ⟨rfl, ?_⟩⟩
  · exact C6_distributor_delete_guard.1 dbC6 100 1 fixDistributor rfl rfl rfl
  · exact C6_distributor_delete_guard.2 dbC6b 100 1 fixDistributor rfl rfl rfl

/-- C7: forgot-password always returns the same success-shaped output,
and the reset-record plus e-mail side effects happen exactly when the
e-mail belongs to an existing user. -/
theorem C7_enumeration_resistance :
    ∀ (w : AuthWorld) (email resetToken : String) (now : Int),
      (AuthService.forgotPassword w email resetToken now).1 = .ok () ∧
      ((AuthService.forgotPassword w email resetToken now).2.sentEmails ≠ w.sentEmails ↔
        w.findUserByEmail email ≠ none) ∧
      ((AuthService.forgotPassword w email resetToken now).2.passwordResets ≠ w.passwordResets ↔
        w.findUserByEmail email ≠ none) ∧
      (w.findUserByEmail email = none →
        (AuthService.forgotPassword w email resetToken now).2 = w) := by
  intro w email resetToken now
  unfold AuthService.forgotPassword
  rcases hfind : w.findUserByEmail email with _ | u <;> simp [hfind]

/-- Witness for C7: the registered and unregistered e-mail addresses on
the concrete auth world. -/
theorem C7_enumeration_resistance_witness :
    ((AuthService.forgotPassword wC7 "joao@example.com" "tk1" 0).1 = .ok () ∧
     ((AuthService.forgotPassword wC7 "joao@example.com" "tk1" 0).2.sentEmails ≠ wC7.sentEmails ↔
       wC7.findUserByEmail "joao@example.com" ≠ none) ∧
     ((AuthService.forgotPassword wC7 "joao@example.com" "tk1" 0).2.passwordResets ≠ wC7.passwordResets ↔
       wC7.findUserByEmail "joao@example.com" ≠ none) ∧
     (wC7.findUserByEmail "joao@example.com" = none →
       (AuthService.forgotPassword wC7 "joao@example.com" "tk1" 0).2 = wC7)) ∧
    ((AuthService.forgotPassword wC7 "maria@example.com" "tk2" 0).1 = .ok () ∧
     ((AuthService.forgotPassword wC7 "maria@example.com" "tk2" 0).2.sentEmails ≠ wC7.sentEmails ↔
       wC7.findUserByEmail "maria@example.com" ≠ none) ∧
     ((AuthService.forgotPassword wC7 "maria@example.com" "tk2" 0).2.passwordResets ≠ wC7.passwordResets ↔
       wC7.findUserByEmail "maria@example.com" ≠ none) ∧
     (wC7.findUserByEmail "maria@example.com" = none →
       (AuthService.forgotPassword wC7 "maria@example.com" "tk2" 0).2 = wC7)) :=
  ⟨C7_enumeration_resistance wC7 "joao@example.com" "tk1" 0,
   C7_enumeration_resistance wC7 "maria@example.com" "tk2" 0⟩

/-- C9: a failed login yields the identical UnauthorizedError value — same
kind, same message — whether the e-mail is unregistered or the password is
wrong for a registered e-mail; the missing-user case evaluates the
password branch to false and falls into the single shared throw. -/
theorem C9_login_failure_indistinguishable :
    (∀ (verify : String → String → Bool) (w : AuthWorld) (email password : String)
       (channel : Channel) (now : Int) (webExpiresIn : ExpiryStr) (newToken : String),
       w.findUserByEmail email = none →
       AuthService.login verify w email password channel now webExpiresIn newToken =
         (.error (.unauthorized "Credenciais inválidas"), w)) ∧
    (∀ (verify : String → String → Bool) (w : AuthWorld) (email password : String)
       (channel : Channel) (now : Int) (webExpiresIn : ExpiryStr) (newToken : String)
       (u : User),
       w.findUserByEmail email = some u →
       verify password u.password = false →
       AuthService.login verify w email password channel now webExpiresIn newToken =
         (.error (.unauthorized "Credenciais inválidas"), w)) := by
  constructor
  · intro verify w email password channel now webExpiresIn newToken hfind
    unfold AuthService.login
    simp [hfind]
  · intro verify w email password channel now webExpiresIn newToken u hfind hverify
    unfold AuthService.login
    simp [hfind, hverify]

/-- Witness for C9: unknown e-mail and wrong password produce the same
error value on the concrete auth world. -/
theorem C9_login_failure_indistinguishable_witness :
    (wC9.findUserByEmail "maria@example.com" = none ∧
     AuthService.login (fun _ _ => false) wC9 "maria@example.com" "Senha@123"
       .WEB 0 (.minutes 15) "t1" =
       (.error (.unauthorized "Credenciais inválidas"), wC9)) ∧
    (wC9.findUserByEmail "joao@example.com" = some userC7 ∧
     (fun (_ : String) (_ : String) => false) "SenhaErrada" userC7.password = false ∧
     AuthService.login (fun _ _ => false) wC9 "joao@example.com" "SenhaErrada"
       .WEB 0 (.minutes 15) "t2" =
       (.error (.unauthorized "Credenciais inválidas"), wC9)) := by
  refine ⟨⟨rfl, ?_⟩, ⟨rfl, rfl, ?_⟩⟩
  · exact C9_login_failure_indistinguishable.1 (fun _ _ => false) wC9 "maria@example.com"
      "Senha@123" .WEB 0 (.minutes 15) "t1" rfl
  · exact C9_login_failure_indistinguishable.2 (fun _ _ => false) wC9 "joao@example.com"
      "SenhaErrada" .WEB 0 (.minutes 15) "t2" userC7 rfl rfl

/-- Revoking a token string changes only the revocation stamp of the row
found under that string. -/
theorem find_revoke (l : List AuthToken) (token : String) (now : Int) :
    (l.map (fun t => if t.token == token then { t with revokedAt := some now } else t)).find?
        (fun t => t.token == token) =
      (l.find? (fun t => t.token == token)).map (fun t => { t with revokedAt := some now }) := by
  induction l with
  | nil => rfl
  | cons a l ih =>
    cases h : (a.token == token) with
    | true =>
      simp only [List.map_cons, List.find?, h, if_pos]
      simp [h]
    | false =>
      simp only [List.map_cons, List.find?, h, Bool.false_eq_true, if_false]
      simpa [h] using ih

/-- The token lookup after a revocation returns the stored row with its
revocation stamp set. -/
theorem findActiveToken_revoke (w : AuthWorld) (token : String) (now : Int) :
    (w.revokeToken token now).findActiveToken token =
      (w.findActiveToken token).map (fun t => { t with revokedAt := some now }) := by
  unfold AuthWorld.findActiveToken AuthWorld.revokeToken
  exact find_revoke w.authTokens token now

/-- Inversion of a successful logout: the token existed, was unrevoked,
and the new state is the old one with the token revoked. -/
theorem logout_ok_inv {w : AuthWorld} {token : String} {now : Int} {w' : AuthWorld}
    (h : AuthService.logout w token now = (.ok (), w')) :
    ∃ st, w.findActiveToken token = some st ∧ st.revokedAt = none ∧
      w' = w.revokeToken token now := by
  unfold AuthService.logout at h
  split at h
  · simp at h
  next st hfind =>
    split at h
    · simp at h
    next hrev =>
      simp at h hrev
      exact ⟨st, hfind, hrev, h.symm⟩

/-- C8: a WEB login stores a token whose expiry is a future instant
(now plus the configured positive window) while a MOBILE login stores one
with no expiry; the middleware rejects a stored token once its expiry has
elapsed, accepts an unrevoked no-expiry token at any instant, rejects any
token after logout, and a second logout of the same token fails because it
is already revoked. -/
theorem C8_token_lifecycle :
    (∀ (verify : String → String → Bool) (w : AuthWorld) (email password : String)
       (now : Int) (webExpiresIn : ExpiryStr) (newToken : String) (u : User),
       w.findUserByEmail email = some u →
       verify password u.password = true →
       AuthService.login verify w email password .WEB now webExpiresIn newToken =
         (.ok newToken,
           { w with authTokens := w.authTokens ++
               [{ userId := u.id, token := newToken, channel := .WEB,
                  expiresAt := some (now + parseJwtExpiry webExpiresIn), revokedAt := none }] }) ∧
       (0 < parseJwtExpiry webExpiresIn → now < now + parseJwtExpiry webExpiresIn)) ∧
    (∀ (verify : String → String → Bool) (w : AuthWorld) (email password : String)
       (now : Int) (webExpiresIn : ExpiryStr) (newToken : String) (u : User),
       w.findUserByEmail email = some u →
       verify password u.password = true →
       AuthService.login verify w email password .MOBILE now webExpiresIn newToken =
         (.ok newToken,
           { w with authTokens := w.authTokens ++
               [{ userId := u.id, token := newToken, channel := .MOBILE,
                  expiresAt := none, revokedAt := none }] })) ∧
    (∀ (w : AuthWorld) (token : String) (now : Int) (st : AuthToken) (e : Int),
       w.findActiveToken token = some st → st.revokedAt = none →
       st.expiresAt = some e → e < now →
       authenticateToken w token now = .error (.unauthorized "Token expirado")) ∧
    (∀ (w : AuthWorld) (token : String) (now : Int) (st : AuthToken),
       w.findActiveToken token = some st → st.revokedAt = none →
       st.expiresAt = none →
       authenticateToken w token now = .ok ()) ∧
    (∀ (w w' : AuthWorld) (token : String) (now now2 : Int),
       AuthService.logout w token now = (.ok (), w') →
       authenticateToken w' token now2 = .error (.unauthorized "Token revogado")) ∧
    (∀ (w w' : AuthWorld) (token : String) (now now2 : Int),
       AuthService.logout w token now = (.ok (), w') →
       AuthService.logout w' token now2 =
         (.error (.unauthorized "Token já foi revogado"), w')) := by
  refine ⟨?_, ?_, ?_, ?_, ?_, ?_⟩
  · intro verify w email password now webExpiresIn newToken u hfind hverify
    constructor
    · unfold AuthService.login
      simp [hfind, hverify]
    · intro hpos
      omega
  · intro verify w email password now webExpiresIn newToken u hfind hverify
    unfold AuthService.login
    simp [hfind, hverify]
  · intro w token now st e hfind hrev hexp hlt
    unfold authenticateToken
    simp [hfind, hrev, hexp, hlt]
  · intro w token now st hfind hrev hexp
    unfold authenticateToken
    simp [hfind, hrev, hexp]
  · intro w w' token now now2 h
    obtain ⟨st, hfind, hrev, hw'⟩ := logout_ok_inv h
    subst hw'
    unfold authenticateToken
    rw [findActiveToken_revoke, hfind]
    simp
  · intro w w' token now now2 h
    obtain ⟨st, hfind, hrev, hw'⟩ := logout_ok_inv h
    subst hw'
    unfold AuthService.logout
    rw [findActiveToken_revoke, hfind]
    simp

/-- Witness for C8: a WEB and a MOBILE login on the concrete world, an
expired WEB token rejected at instant 1000, the MOBILE token accepted,
then rejected after logout, and a double logout failing. -/
theorem C8_token_lifecycle_witness :
    ((AuthService.login (fun _ _ => true) wC8 "joao@example.com" "Senha@123"
        .WEB 0 (.minutes 15) "tokweb" =
       (.ok "tokweb",
         { wC8 with authTokens := wC8.authTokens ++
             [{ userId := userC7.id, token := "tokweb", channel := .WEB,
                expiresAt := some (0 + parseJwtExpiry (.minutes 15)), revokedAt := none }] }) ∧
      (0 < parseJwtExpiry (.minutes 15) → (0 : Int) < 0 + parseJwtExpiry (.minutes 15)))) ∧
    (AuthService.login (fun _ _ => true) wC8 "joao@example.com" "Senha@123"
        .MOBILE 0 (.minutes 15) "tokmob" =
       (.ok "tokmob",
         { wC8 with authTokens := wC8.authTokens ++
             [{ userId := userC7.id, token := "tokmob", channel := .MOBILE,
                expiresAt := none, revokedAt := none }] })) ∧
    (authenticateToken wC8e "tokweb" 1000 = .error (.unauthorized "Token expirado")) ∧
    (authenticateToken wC8m "tokmob" 1000 = .ok ()) ∧
    (AuthService.logout wC8m "tokmob" 5 = (.ok (), wC8r) ∧
     authenticateToken wC8r "tokmob" 99 = .error (.unauthorized "Token revogado")) ∧
    (AuthService.logout wC8r "tokmob" 99 =
      (.error (.unauthorized "Token já foi revogado"), wC8r)) := by
  refine ⟨?_, ?_, ?_, ?_, ⟨by rfl, ?_⟩, ?_⟩
  · exact C8_token_lifecycle.1 (fun _ _ => true) wC8 "joao@example.com" "Senha@123"
      0 (.minutes 15) "tokweb" userC7 rfl rfl
  · exact C8_token_lifecycle.2.1 (fun _ _ => true) wC8 "joao@example.com" "Senha@123"
      0 (.minutes 15) "tokmob" userC7 rfl rfl
  · exact C8_token_lifecycle.2.2.1 wC8e "tokweb" 1000 tokC8e 500 rfl rfl rfl (by decide)
  · exact C8_token_lifecycle.2.2.2.1 wC8m "tokmob" 1000 tokC8m rfl rfl rfl
  · exact C8_token_lifecycle.2.2.2.2.1 wC8m wC8r "tokmob" 5 99 (by rfl)
  · exact C8_token_lifecycle.2.2.2.2.2 wC8m wC8r "tokmob" 5 99 (by rfl)

/-- C10: the repository updates of properties, distributors and
consumption records spread only the defined entries of the payload over
the stored row: every absent field keeps its stored value, every supplied
field takes the supplied value, and fields outside the payload (ids,
ownership, immutable columns) never change. -/
theorem C10_update_frame :
    (∀ (db : DB) (id : Nat) (u : UpdatePropertyInput) (p : Property),
       db.findProperty id = some p →
       (PropertyRepository.update db id u).map Prod.fst = .ok
         { id := p.id, userId := p.userId,
           distributorId := u.distributorId.getD p.distributorId,
           name := u.name.getD p.name,
           address := match u.address with | some v => some v | none => p.address,
           city := match u.city with | some v => some v | none => p.city,
           state := match u.state with | some v => some v | none => p.state,
           zipCode := match u.zipCode with | some v => some v | none => p.zipCode }) ∧
    (∀ (db : DB) (id : Nat) (u : UpdateDistributorInput) (d : Distributor),
       db.findDistributor id = some d →
       (DistributorRepository.update db id u).map Prod.fst = .ok
         { id := d.id, userId := d.userId, cnpj := d.cnpj,
           name := u.name.getD d.name,
           electricalSystem := u.electricalSystem.getD d.electricalSystem,
           workingVoltage := u.workingVoltage.getD d.workingVoltage,
           kwhPrice := u.kwhPrice.getD d.kwhPrice,
           taxRate := match u.taxRate with | some v => some v | none => d.taxRate,
           publicLightingFee := match u.publicLightingFee with
             | some v => some v | none => d.publicLightingFee }) ∧
    (∀ (db : DB) (id : Nat) (u : UpdateConsumptionInput) (cost : Option Rat)
       (r : ConsumptionRecord),
       db.findConsumption id = some r →
       (ConsumptionRepository.update db id u cost).map Prod.fst = .ok
         { id := r.id, target := r.target, period := r.period,
           referenceDate := r.referenceDate,
           kwhConsumed := u.kwhConsumed.getD r.kwhConsumed,
           costBrl := cost.getD r.costBrl,
           notes := match u.notes with | some v => some v | none => r.notes }) := by
  refine ⟨?_, ?_, ?_⟩
  · intro db id u p hp
    obtain ⟨ud, un, ua, uc, us, uz⟩ := u
    unfold PropertyRepository.update
    rw [hp]
    cases ud <;> cases un <;> cases ua <;> cases uc <;> cases us <;> cases uz <;> rfl
  · intro db id u d hd
    obtain ⟨un, ue, uw, uk, ut, up⟩ := u
    unfold DistributorRepository.update
    rw [hd]
    cases un <;> cases ue <;> cases uw <;> cases uk <;> cases ut <;> cases up <;> rfl
  · intro db id u cost r hr
    obtain ⟨uk, un⟩ := u
    unfold ConsumptionRepository.update
    rw [hr]
    cases uk <;> cases un <;> cases cost <;> rfl

/-- Witness for C10: partial payloads on the concrete state change exactly
the supplied fields. -/
theorem C10_update_frame_witness :
    (dbC10.findProperty 10 = some fixProperty ∧
     (PropertyRepository.update dbC10 10 upPropC10).map Prod.fst = .ok
       { fixProperty with name := "Casa Nova", city := some "Belo Horizonte" }) ∧
    (dbC10.findDistributor 100 = some fixDistributor ∧
     (DistributorRepository.update dbC10 100 upDistC10).map Prod.fst = .ok
       { fixDistributor with kwhPrice := 1 }) ∧
    (dbC10.findConsumption 9 = some recC10 ∧
     (ConsumptionRepository.update dbC10 9 upConsC10 none).map Prod.fst = .ok
       { recC10 with notes := some "Observação" }) := by
  refine ⟨⟨rfl, ?_⟩, ⟨rfl, ?_⟩, ⟨rfl, ?_⟩⟩
  · exact C10_update_frame.1 dbC10 10 upPropC10 fixProperty rfl
  · exact C10_update_frame.2.1 dbC10 100 upDistC10 fixDistributor rfl
  · exact C10_update_frame.2.2 dbC10 9 upConsC10 none recC10 rfl

end Lumitrack
